import Mathlib

/-!
Verification development for the Faust RNBO architecture generator
(`architecture/max-msp/rnbo.py`).

The Python program builds a Max/MSP "maxpat" graph (boxes and patch cords)
for a compiled Faust DSP.  We shallow-embed the graph-construction core.

Modelling conventions (each definition's doc comment names the Python
function it embeds):
* The py2max library (an external collaborator, not part of this
  repository) only provides node/edge accumulation and serialization; per
  spec section 6 its seam is `create_node` / `connect` / `persist`.  We
  model a patcher as an append-only list of boxes and an append-only list
  of edges, with sequential integer ids; `add_line` appends one edge.
  File saving (`patcher.save()`, `saveas`) has no graph effect and is
  omitted.
* Purely visual data (positions, rects, fontsize, colors) is omitted:
  spec section 1 declares layout out of scope.
* Python numeric UI fields (`min`/`max`/`init`/`step`) are modelled as
  `Int`; only their textual occurrence in box texts and zero-tests matter
  to the claims.
* A Python run-time exception (UnboundLocalError, ZeroDivisionError,
  TypeError) is modelled by returning `none` from the enclosing function.
-/

/-- Edge of the patch graph: a py2max patch line
`add_line(src, dst, outlet=…, inlet=…)` connecting outlet `outlet` of box
`src` to inlet `inlet` of box `dst`. -/
structure Line where
  src : Nat
  dst : Nat
  outlet : Nat
  inlet : Nat
deriving DecidableEq

/-- Box inside an rnbo~ subpatcher: `kind` is "textbox" or "codebox~",
`text` the Max object text (or the codebox code). -/
structure SubBox where
  id : Nat
  kind : String
  text : String
deriving DecidableEq

/-- An rnbo~ subpatcher: append-only boxes and lines, next fresh id. -/
structure SubPatch where
  boxes : List SubBox
  lines : List Line
  nextId : Nat
deriving DecidableEq

/-- Entry of the `IOInfo` dictionaries built by `generate_io_info`:
`{"comment": "", "index": i, "tag": f"in{i}", "type": …}`.  The Python
`type` key is named `ioType` here. -/
structure IOEntry where
  comment : String
  index : Nat
  tag : String
  ioType : String
deriving DecidableEq

/-- Box of the top-level patcher.  `kind` distinguishes "textbox",
"message", "comment", "attrui" and "rnbo"; for an rnbo~ box, `text` is
its title, `polyphony` the optional `polyphony` saved attribute and
`ioIn`/`ioOut` the `inletInfo`/`outletInfo` metadata.  The subpatcher of
an rnbo~ box is carried separately (see `PatchResult`). -/
structure MainBox where
  id : Nat
  kind : String
  text : String
  numinlets : Nat
  numoutlets : Nat
  polyphony : Option Int
  ioIn : List IOEntry
  ioOut : List IOEntry
deriving DecidableEq

/-- The top-level patcher: append-only boxes and lines, next fresh id. -/
structure Patcher where
  boxes : List MainBox
  lines : List Line
  nextId : Nat
deriving DecidableEq

def SubPatch.empty : SubPatch := ⟨[], [], 0⟩

/-- Model of py2max `sub_patch.add_textbox(text)`. -/
def SubPatch.addTextbox (p : SubPatch) (text : String) : SubBox × SubPatch :=
  let b : SubBox := ⟨p.nextId, "textbox", text⟩
  (b, ⟨p.boxes ++ [b], p.lines, p.nextId + 1⟩)

/-- Model of py2max `sub_patch.add_codebox_tilde(code=…)`. -/
def SubPatch.addCodebox (p : SubPatch) (code : String) : SubBox × SubPatch :=
  let b : SubBox := ⟨p.nextId, "codebox~", code⟩
  (b, ⟨p.boxes ++ [b], p.lines, p.nextId + 1⟩)

/-- Model of py2max `sub_patch.add_line(src, dst, outlet=o, inlet=i)`. -/
def SubPatch.addLine (p : SubPatch) (src dst : SubBox) (outlet inlet : Nat) :
    SubPatch :=
  ⟨p.boxes, p.lines ++ [⟨src.id, dst.id, outlet, inlet⟩], p.nextId⟩

def Patcher.empty : Patcher := ⟨[], [], 0⟩

/-- Model of py2max `patcher.add_textbox(text)` (plain text object). -/
def Patcher.addTextbox (p : Patcher) (text : String) : MainBox × Patcher :=
  let b : MainBox := ⟨p.nextId, "textbox", text, 0, 0, none, [], []⟩
  (b, ⟨p.boxes ++ [b], p.lines, p.nextId + 1⟩)

/-- Model of py2max `patcher.add_textbox(text, numinlets=…, numoutlets=…)`
as used for the dac~ and adc~ objects. -/
def Patcher.addTextboxIO (p : Patcher) (text : String) (nin nout : Nat) :
    MainBox × Patcher :=
  let b : MainBox := ⟨p.nextId, "textbox", text, nin, nout, none, [], []⟩
  (b, ⟨p.boxes ++ [b], p.lines, p.nextId + 1⟩)

/-- Model of py2max `patcher.add_message(text)`. -/
def Patcher.addMessage (p : Patcher) (text : String) : MainBox × Patcher :=
  let b : MainBox := ⟨p.nextId, "message", text, 0, 0, none, [], []⟩
  (b, ⟨p.boxes ++ [b], p.lines, p.nextId + 1⟩)

/-- Model of py2max `patcher.add_comment(text, …)`. -/
def Patcher.addComment (p : Patcher) (text : String) : MainBox × Patcher :=
  let b : MainBox := ⟨p.nextId, "comment", text, 0, 0, none, [], []⟩
  (b, ⟨p.boxes ++ [b], p.lines, p.nextId + 1⟩)

/-- Model of the `attrui` upper-level parameter-control boxes added by
`add_rnbo_object` (rnbo.py lines 462-475 and 491-504).  `text` holds the
bound attribute label; the purely display-level saved attributes
(minimum/maximum/parameter_initial) are not needed by any claim and are
omitted. -/
def Patcher.addAttrui (p : Patcher) (label : String) : MainBox × Patcher :=
  let b : MainBox := ⟨p.nextId, "attrui", label, 0, 0, none, [], []⟩
  (b, ⟨p.boxes ++ [b], p.lines, p.nextId + 1⟩)

/-- Model of py2max `patcher.add_rnbo(…)` (rnbo.py lines 402-409): records
title, port counts, IOInfo metadata and the optional polyphony saved
attribute. -/
def Patcher.addRnbo (p : Patcher) (title : String) (nin nout : Nat)
    (poly : Option Int) (ioIn ioOut : List IOEntry) : MainBox × Patcher :=
  let b : MainBox := ⟨p.nextId, "rnbo", title, nin, nout, poly, ioIn, ioOut⟩
  (b, ⟨p.boxes ++ [b], p.lines, p.nextId + 1⟩)

/-- Model of py2max `patcher.add_line(src, dst, outlet=o, inlet=i)`. -/
def Patcher.addLine (p : Patcher) (src dst : MainBox) (outlet inlet : Nat) :
    Patcher :=
  ⟨p.boxes, p.lines ++ [⟨src.id, dst.id, outlet, inlet⟩], p.nextId⟩

/-- Append a batch of lines; used to model Python `for` loops that only
call `add_line` repeatedly. -/
def Patcher.addLines (p : Patcher) (ls : List Line) : Patcher :=
  ⟨p.boxes, p.lines ++ ls, p.nextId⟩

/-- One UI item as extracted by `extract_items_info` (rnbo.py lines
94-162): shortname, item type, numeric fields and the whitespace-split
`midi` annotation tokens. -/
structure Item where
  shortname : String
  itemType : String
  init : Int
  min : Int
  max : Int
  step : Int
  midi : List String
deriving DecidableEq

/-- Embeds `build_label` (rnbo.py lines 166-167). -/
def build_label (item_type shortname : String) (test : Bool) : String :=
  if test then "RB_" ++ item_type ++ "_" ++ shortname else shortname

/-- Embeds `add_polyphony_control` (rnbo.py lines 170-226): notein box,
pitch path (through mtof when `is_freq`), gain path (through
`scale 0 127 0 1` when `is_gain`, from notein's velocity outlet 1) and
the always-present `> 0` gate path. -/
def add_polyphony_control (sub_patch : SubPatch)
    (set_param_pitch set_param_gain set_param_gate : SubBox)
    (is_freq is_gain : Bool) : SubPatch :=
  let (note_in, sub_patch) := sub_patch.addTextbox "notein"
  let sub_patch :=
    if is_freq then
      let (mtof, sub_patch) := sub_patch.addTextbox "mtof"
      let sub_patch := sub_patch.addLine note_in mtof 0 0
      sub_patch.addLine mtof set_param_pitch 0 0
    else
      sub_patch.addLine note_in set_param_pitch 0 0
  let sub_patch :=
    if is_gain then
      let (scale_gain, sub_patch) := sub_patch.addTextbox "scale 0 127 0 1"
      let sub_patch := sub_patch.addLine note_in scale_gain 1 0
      sub_patch.addLine scale_gain set_param_gain 0 0
    else
      sub_patch.addLine note_in set_param_gain 1 0
  let (gate_op, sub_patch) := sub_patch.addTextbox "> 0"
  let sub_patch := sub_patch.addLine note_in gate_op 1 0
  sub_patch.addLine gate_op set_param_gate 0 0

/-- Embeds the `midi_mapping` dictionary of `add_midi_control` (rnbo.py
lines 255-263): Faust control class to the RNBO (input, output) object
names; `none` for an unsupported class. -/
def midi_mapping (t : String) : Option (String × String) :=
  if t = "ctrl" then some ("ctlin", "ctlout")
  else if t = "chanpress" then some ("touchin", "touchout")
  else if t = "keyon" then some ("notein", "noteout")
  else if t = "keyoff" then some ("notein", "noteout")
  else if t = "key" then some ("notein", "noteout")
  else if t = "pitchwheel" then
    some ("bendin @bendmode 1", "bendout @bendmode 1")
  else if t = "pgm" then some ("pgmin", "pgmout")
  else none

/-- Embeds `add_midi_control` (rnbo.py lines 229-299).  Returns the
updated subpatch and the Python boolean result; an empty `midi` list or an
unsupported control class returns the subpatch unchanged with `false`
(the Python function logs and returns `False` before adding any box).
The output scaling text reproduces the source literally, including the
`-1 -1` target range of the pitchwheel case (rnbo.py line 282). -/
def add_midi_control (item : Item) (sub_patch : SubPatch)
    (set_param codebox : SubBox) : SubPatch × Bool :=
  match item.midi with
  | [] => (sub_patch, false)
  | midi_type :: rest =>
    match midi_mapping midi_type with
    | none => (sub_patch, false)
    | some names =>
      let midi_args := String.intercalate " " rest
      let (midi_in, sub_patch) :=
        sub_patch.addTextbox (names.1 ++ " " ++ midi_args)
      let (midi_out, sub_patch) :=
        sub_patch.addTextbox (names.2 ++ " " ++ midi_args)
      let scaling_in :=
        if midi_type = "pitchwheel" then
          "scale -1 1 " ++ toString item.min ++ " " ++ toString item.max
        else
          "scale 0 127 " ++ toString item.min ++ " " ++ toString item.max
      let scaling_out :=
        if midi_type = "pitchwheel" then
          "scale " ++ toString item.min ++ " " ++ toString item.max ++ " -1 -1"
        else
          "scale " ++ toString item.min ++ " " ++ toString item.max ++ " 0 127"
      let (scaling_in_box, sub_patch) := sub_patch.addTextbox scaling_in
      let (scaling_out_box, sub_patch) := sub_patch.addTextbox scaling_out
      let sub_patch := sub_patch.addLine midi_in scaling_in_box 0 0
      let sub_patch := sub_patch.addLine scaling_in_box set_param 0 0
      let sub_patch := sub_patch.addLine codebox scaling_out_box 0 0
      let sub_patch := sub_patch.addLine scaling_out_box midi_out 0 0
      (sub_patch, true)

/-- Embeds `generate_io_info` (rnbo.py lines 302-359).  In the MIDI
branch the Python source builds the MIDI outlet entry from the leaked
loop variable `i` (line 344): after the outlet loop `i` is the last
signal-outlet index when `num_outputs > 0`, otherwise the value left over
from the inlet loop when `num_inputs > 0`, otherwise unbound — raising
UnboundLocalError, modelled as `none`. -/
def generate_io_info (midi : Bool) (num_inputs num_outputs : Nat) :
    Option (Nat × Nat × List IOEntry × List IOEntry) :=
  if midi then
    let inlets := max 1 num_inputs + 1
    let inletInfo : List IOEntry :=
      ((List.range num_inputs).map fun k =>
        ⟨"", k + 1, "in" ++ toString (k + 1), "signal"⟩)
      ++ [⟨"", inlets, "in" ++ toString inlets, "midi"⟩]
    let outlets := max 1 num_outputs + 3
    let sigOut : List IOEntry :=
      (List.range num_outputs).map fun k =>
        ⟨"", k + 1, "out" ++ toString (k + 1), "signal"⟩
    let leaked : Option Nat :=
      if 0 < num_outputs then some num_outputs
      else if 0 < num_inputs then some num_inputs
      else none
    match leaked with
    | none => none
    | some i =>
      some (inlets, outlets, inletInfo,
        sigOut ++ [⟨"", i, "out" ++ toString i, "midi"⟩])
  else
    let inlets := max 1 num_inputs
    let inletInfo : List IOEntry :=
      (List.range num_inputs).map fun k =>
        ⟨"", k + 1, "in" ++ toString (k + 1), "signal"⟩
    let outlets := max 1 num_outputs + 2
    let outletInfo : List IOEntry :=
      (List.range num_outputs).map fun k =>
        ⟨"", k + 1, "out" ++ toString (k + 1), "signal"⟩
    some (inlets, outlets, inletInfo, outletInfo)

/-- Polyphony role classification: the elif chain on parameter shortname
suffixes in `add_rnbo_object` (rnbo.py lines 519-533), as one function. -/
inductive PolyRole where
  | pitchFreq
  | pitchKey
  | gainDirect
  | gainVel
  | gateRole
deriving DecidableEq

/-- Python `str.endswith`, as a character-level suffix test. -/
def strEndsWith (s p : String) : Bool := p.data.isSuffixOf s.data

/-- Embeds the suffix elif chain of rnbo.py lines 520-533 (checked in
source order: freq, key, gain, velocity, gate; first match wins). -/
def roleOf (sn : String) : Option PolyRole :=
  if strEndsWith sn "freq" then some PolyRole.pitchFreq
  else if strEndsWith sn "key" then some PolyRole.pitchKey
  else if strEndsWith sn "gain" then some PolyRole.gainDirect
  else if strEndsWith sn "velocity" then some PolyRole.gainVel
  else if strEndsWith sn "gate" then some PolyRole.gateRole
  else none

/-- State threaded through the per-item loop of `add_rnbo_object`
(rnbo.py lines 436-537): the outer patcher, the subpatch, the three
polyphony relay accumulators (`set_param_pitch` / `set_param_gain` /
`set_param_gate`) and the `is_freq` / `is_gain` flags. -/
structure BuildState where
  patcher : Patcher
  sub : SubPatch
  pitch : Option SubBox
  gain : Option SubBox
  gate : Option SubBox
  is_freq : Bool
  is_gain : Bool
deriving DecidableEq

/-- Tail of one iteration of the parameter loop (rnbo.py lines 513-537):
wire param → set → codebox, update the polyphony accumulators when
`midi and nvoices > 0` (the elif chain, via `roleOf`), then possibly add
MIDI control. -/
def finish_item (midi : Bool) (nvoices : Int) (codebox : SubBox) (item : Item)
    (patcher : Patcher) (sub : SubPatch) (set_param param : SubBox)
    (st : BuildState) : BuildState :=
  let sub := sub.addLine param set_param 0 0
  let sub := sub.addLine set_param codebox 0 0
  let roles :=
    if midi && decide (0 < nvoices) then
      match roleOf item.shortname with
      | some PolyRole.pitchFreq =>
        (some set_param, st.gain, st.gate, true, st.is_gain)
      | some PolyRole.pitchKey =>
        (some set_param, st.gain, st.gate, false, st.is_gain)
      | some PolyRole.gainDirect =>
        (st.pitch, some set_param, st.gate, st.is_freq, true)
      | some PolyRole.gainVel =>
        (st.pitch, some set_param, st.gate, st.is_freq, false)
      | some PolyRole.gateRole =>
        (st.pitch, st.gain, some set_param, st.is_freq, st.is_gain)
      | none => (st.pitch, st.gain, st.gate, st.is_freq, st.is_gain)
    else (st.pitch, st.gain, st.gate, st.is_freq, st.is_gain)
  let sub := if midi then (add_midi_control item sub set_param codebox).1 else sub
  ⟨patcher, sub, roles.1, roles.2.1, roles.2.2.1, roles.2.2.2.1, roles.2.2.2.2⟩

/-- One iteration of the parameter loop of `add_rnbo_object` (rnbo.py
lines 443-537).  A slider/nentry item computes
`steps_value = (max - min) / step` (line 488); `step = 0` raises
ZeroDivisionError, modelled as `none`. -/
def process_item (midi : Bool) (nvoices : Int) (test : Bool)
    (rnbo : MainBox) (codebox : SubBox) (st : BuildState) (item : Item) :
    Option BuildState :=
  let label := build_label item.itemType item.shortname test
  let (set_param, sub) := st.sub.addTextbox ("set " ++ label)
  if item.itemType = "button" ∨ item.itemType = "checkbox" then
    let (toggle, patcher) := st.patcher.addTextbox "toggle"
    let (param_wrap, patcher) := patcher.addAttrui label
    let patcher := patcher.addLine toggle param_wrap 0 0
    let patcher := patcher.addLine param_wrap rnbo 0 0
    let (param, sub) := sub.addTextbox ("param " ++ label ++ " 0 @min 0 @max 1")
    some (finish_item midi nvoices codebox item patcher sub set_param param st)
  else
    if item.step = 0 then none
    else
      let (param_wrap, patcher) := st.patcher.addAttrui label
      let patcher := patcher.addLine param_wrap rnbo 0 0
      let (param, sub) := sub.addTextbox
        ("param " ++ label ++ " " ++ toString item.init
          ++ " @min " ++ toString item.min ++ " @max " ++ toString item.max)
      some (finish_item midi nvoices codebox item patcher sub set_param param st)

/-- The whole parameter loop `for item in items_info_list` of
`add_rnbo_object`, propagating a raised exception as `none`. -/
def process_items (midi : Bool) (nvoices : Int) (test : Bool)
    (rnbo : MainBox) (codebox : SubBox) :
    List Item → BuildState → Option BuildState
  | [], st => some st
  | item :: rest, st =>
    match process_item midi nvoices test rnbo codebox st item with
    | none => none
    | some st2 => process_items midi nvoices test rnbo codebox rest st2

/-- Signal-input boxes `in~ 1 … in~ n` added by the input loop of
`add_rnbo_object` (rnbo.py lines 426-428), with sequential ids. -/
def sigInBoxes (start n : Nat) : List SubBox :=
  (List.range n).map fun i => ⟨start + i, "textbox", "in~ " ++ toString (i + 1)⟩

/-- Lines of the input loop: `in~ (i+1)` into inlet `i` of the codebox. -/
def sigInLines (start cbid n : Nat) : List Line :=
  (List.range n).map fun i => ⟨start + i, cbid, 0, i⟩

/-- Signal-output boxes `out~ 1 … out~ n` (rnbo.py lines 431-433). -/
def sigOutBoxes (start n : Nat) : List SubBox :=
  (List.range n).map fun i => ⟨start + i, "textbox", "out~ " ++ toString (i + 1)⟩

/-- Lines of the output loop: outlet `i` of the codebox into `out~ (i+1)`. -/
def sigOutLines (start cbid n : Nat) : List Line :=
  (List.range n).map fun i => ⟨cbid, start + i, i, 0⟩

/-- Start of the subpatcher built by `add_rnbo_object` (rnbo.py lines
411-433): codebox (always id 0), the placeholder `in~ 1` wired into the
codebox exactly when `num_inputs = 0` (lines 421-423), then the signal
`in~`/`out~` boxes and their codebox wiring.  Returns the codebox and the
subpatch.  `add_rnbo_object` itself (rnbo.py lines 362-545) then runs the
parameter loop and `finishPoly`; it returns the rnbo~ box, its finished
subpatcher and the updated top-level patcher, or `none` when the Python
function raises (via `generate_io_info` or the parameter loop). -/
def initSub (codebox_code : String) (num_inputs num_outputs : Nat) :
    SubBox × SubPatch :=
  let c := SubPatch.empty.addCodebox codebox_code
  let codebox := c.1
  let sub := c.2
  let sub :=
    if num_inputs = 0 then
      let s := sub.addTextbox "in~ 1"
      s.2.addLine s.1 codebox 0 0
    else sub
  let sub : SubPatch :=
    ⟨sub.boxes ++ sigInBoxes sub.nextId num_inputs,
     sub.lines ++ sigInLines sub.nextId codebox.id num_inputs,
     sub.nextId + num_inputs⟩
  let sub : SubPatch :=
    ⟨sub.boxes ++ sigOutBoxes sub.nextId num_outputs,
     sub.lines ++ sigOutLines sub.nextId codebox.id num_outputs,
     sub.nextId + num_outputs⟩
  (codebox, sub)

/-- Last step of `add_rnbo_object` (rnbo.py lines 539-543): build the
polyphony sub-graph only when `midi and nvoices > 0` and all three relay
accumulators are set. -/
def finishPoly (midi : Bool) (nvoices : Int) (st : BuildState) : SubPatch :=
  if midi && decide (0 < nvoices) then
    match st.pitch, st.gain, st.gate with
    | some pb, some gb, some tb =>
      add_polyphony_control st.sub pb gb tb st.is_freq st.is_gain
    | _, _, _ => st.sub
  else st.sub

def add_rnbo_object (patcher : Patcher) (dsp_name codebox_code : String)
    (items_info_list : List Item) (midi : Bool) (nvoices : Int) (test : Bool)
    (num_inputs num_outputs : Nat) : Option (MainBox × SubPatch × Patcher) :=
  (generate_io_info midi num_inputs num_outputs).bind fun io =>
    let poly : Option Int :=
      if midi && decide (0 < nvoices) then some nvoices else none
    let rp := patcher.addRnbo dsp_name io.1 io.2.1 poly io.2.2.1 io.2.2.2
    let rnbo := rp.1
    let cs := initSub codebox_code num_inputs num_outputs
    let st0 : BuildState := ⟨rp.2, cs.2, none, none, none, false, false⟩
    (process_items midi nvoices test rnbo cs.1 items_info_list st0).map fun st =>
      (rnbo, finishPoly midi nvoices st, st.patcher)

/-- Embeds `connect_dsp_effect` (rnbo.py lines 548-595): the exhaustive
channel-pair match; any pair outside the table adds nothing. -/
def connect_dsp_effect (patcher : Patcher) (dsp_rnbo effect_rnbo : MainBox)
    (dsp_num_outputs effect_num_inputs : Nat) : Patcher :=
  match dsp_num_outputs, effect_num_inputs with
  | 1, 1 => patcher.addLine dsp_rnbo effect_rnbo 0 0
  | 1, 2 =>
    (patcher.addLine dsp_rnbo effect_rnbo 0 0).addLine dsp_rnbo effect_rnbo 0 1
  | 2, 1 =>
    (patcher.addLine dsp_rnbo effect_rnbo 0 0).addLine dsp_rnbo effect_rnbo 1 0
  | 2, 2 =>
    (patcher.addLine dsp_rnbo effect_rnbo 0 0).addLine dsp_rnbo effect_rnbo 1 1
  | _, _ => patcher

/-- Embeds `add_compile_test` (rnbo.py lines 598-640): the loadbang /
dumptargetconfig / export machinery, ending with the rnbo dump outlet
(`numoutlets - 1`) routed back. -/
def add_compile_test (patcher : Patcher) (rnbo : MainBox)
    (export_path cpp_filename : String) : Patcher :=
  let (load_bang, patcher) := patcher.addTextbox "loadbang"
  let (dump_target_config, patcher) :=
    patcher.addMessage "dumptargetconfig cpp-export cpp-code-export"
  let (tb, patcher) := patcher.addTextbox "t b b s"
  let (set_path, patcher) := patcher.addMessage
    ("set output_path " ++ export_path ++ ", set export_name " ++ cpp_filename)
  let (dict1, patcher) := patcher.addTextbox "dict"
  let (route_dict, patcher) := patcher.addTextbox "route dictionary"
  let (export_box, patcher) := patcher.addMessage "export cpp-export cpp-code-export $1"
  let (route, patcher) := patcher.addTextbox "route targetconfig"
  let patcher := patcher.addLine load_bang dump_target_config 0 0
  let patcher := patcher.addLine dump_target_config rnbo 0 0
  let patcher := patcher.addLine tb dict1 0 0
  let patcher := patcher.addLine tb set_path 1 0
  let patcher := patcher.addLine tb dict1 2 1
  let patcher := patcher.addLine set_path dict1 0 0
  let patcher := patcher.addLine dict1 route_dict 0 0
  let patcher := patcher.addLine route_dict export_box 0 0
  let patcher := patcher.addLine route tb 0 0
  let patcher := patcher.addLine export_box rnbo 0 0
  patcher.addLine rnbo route (rnbo.numoutlets - 1) 0

/-- The `"dac~ 1 2 …"` / `"adc~ 1 2 …"` object text. -/
def chanText (base : String) (n : Nat) : String :=
  base ++ " " ++ String.intercalate " " ((List.range n).map fun i => toString (i + 1))

/-- Embeds `create_audio_output` (rnbo.py lines 643-682): toggle, dac~
with `num_outputs` inlets, toggle → dac~, and one line per channel from
the rnbo box (outlet i → inlet i). -/
def create_audio_output (patcher : Patcher) (rnbo : MainBox)
    (num_outputs : Nat) : MainBox × Patcher :=
  let (toggle, patcher) := patcher.addTextbox "toggle"
  let (audio_out, patcher) :=
    patcher.addTextboxIO (chanText "dac~" num_outputs) num_outputs 0
  let patcher := patcher.addLine toggle audio_out 0 0
  let patcher := patcher.addLines
    ((List.range num_outputs).map fun i => ⟨rnbo.id, audio_out.id, i, i⟩)
  (audio_out, patcher)

/-- Embeds `create_audio_input` (rnbo.py lines 685-710): adc~ with
`num_inputs` outlets and one line per channel into the rnbo box. -/
def create_audio_input (patcher : Patcher) (rnbo : MainBox)
    (num_inputs : Nat) : MainBox × Patcher :=
  let (audio_in, patcher) :=
    patcher.addTextboxIO (chanText "adc~" num_inputs) 0 num_inputs
  let patcher := patcher.addLines
    ((List.range num_inputs).map fun i => ⟨audio_in.id, rnbo.id, i, i⟩)
  (audio_in, patcher)

/-- Embeds `connect_midi` (rnbo.py lines 713-733): midiin into the
right-most inlet, third-from-right outlet into midiout. -/
def connect_midi (patcher : Patcher) (rnbo midi_in midi_out : MainBox) :
    Patcher :=
  let patcher := patcher.addLine midi_in rnbo 0 (rnbo.numinlets - 1)
  patcher.addLine rnbo midi_out (rnbo.numoutlets - 3) 0

/-- Python truthiness of the optional effect codebox string: `None` and
`""` are falsy (`if effect_codebox_code:` in rnbo.py lines 816 and 853). -/
def strTruthy : Option String → Bool
  | none => false
  | some s => !(s == "")

/-- Result of `create_rnbo_patch`: the final top-level patcher plus the
boxes the Python function holds in local variables (DSP and effect rnbo~
objects with their subpatchers, the midiin/midiout boxes, the dac~ box,
and the optional adc~ box). -/
structure PatchResult where
  patcher : Patcher
  dsp : MainBox
  dspSub : SubPatch
  midiIn : Option MainBox
  midiOut : Option MainBox
  effect : Option (MainBox × SubPatch)
  audioOut : MainBox
  audioIn : Option MainBox
deriving DecidableEq

/-- Embeds `create_rnbo_patch` (rnbo.py lines 736-865) in source order:
comment, DSP rnbo~ (with the global `midi`/`nvoices`), global
midiin/midiout connected to the DSP when `midi`, optional effect rnbo~
(title "Effect", the same global `midi` flag, `nvoices = -1`,
`test = False`), DSP-to-effect channel adaptation, effect connected to
midiin/midiout when `midi`, optional compile/export machinery, dac~ fed
by the effect when present (else the DSP), and adc~ into the DSP when
`dsp_num_inputs > 0`.  Saving files (`saveas`, `save`) has no graph
effect and is omitted. -/
def create_rnbo_patch (dsp_name dsp_codebox_code : String)
    (dsp_items_info_list : List Item) (dsp_num_inputs dsp_num_outputs : Nat)
    (midi : Bool) (nvoices : Int) (effect_codebox_code : Option String)
    (effect_items_info_list : List Item)
    (effect_num_inputs effect_num_outputs : Nat)
    (compile_flag test : Bool) (export_path cpp_filename : String) :
    Option PatchResult :=
  let c0 := Patcher.empty.addComment
    "Faust generated RNBO patch, Copyright (c) 2023 Grame"
  (add_rnbo_object c0.2 dsp_name dsp_codebox_code dsp_items_info_list
      midi nvoices test dsp_num_inputs dsp_num_outputs).bind fun dspRes =>
    let dsp_rnbo := dspRes.1
    let dsp_sub := dspRes.2.1
    let midiStep : Option (MainBox × MainBox) × Patcher :=
      if midi then
        let mi := dspRes.2.2.addTextbox "midiin"
        let mo := mi.2.addTextbox "midiout"
        (some (mi.1, mo.1), connect_midi mo.2 dsp_rnbo mi.1 mo.1)
      else (none, dspRes.2.2)
    let midiBoxes := midiStep.1
    if strTruthy effect_codebox_code then
      (add_rnbo_object midiStep.2 "Effect"
          (effect_codebox_code.getD "") effect_items_info_list midi (-1) false
          effect_num_inputs effect_num_outputs).map fun effRes =>
        let effect_rnbo := effRes.1
        let p3 := connect_dsp_effect effRes.2.2 dsp_rnbo effect_rnbo
          dsp_num_outputs effect_num_inputs
        let p4 :=
          match midiBoxes with
          | some mio => connect_midi p3 effect_rnbo mio.1 mio.2
          | none => p3
        let p5 :=
          if compile_flag then
            add_compile_test p4 dsp_rnbo export_path cpp_filename
          else p4
        let ao := create_audio_output p5 effect_rnbo effect_num_outputs
        let ai : Option MainBox × Patcher :=
          if 0 < dsp_num_inputs then
            let a := create_audio_input ao.2 dsp_rnbo dsp_num_inputs
            (some a.1, a.2)
          else (none, ao.2)
        ⟨ai.2, dsp_rnbo, dsp_sub, midiBoxes.map Prod.fst,
          midiBoxes.map Prod.snd, some (effect_rnbo, effRes.2.1), ao.1, ai.1⟩
    else
      let p5 :=
        if compile_flag then
          add_compile_test midiStep.2 dsp_rnbo export_path cpp_filename
        else midiStep.2
      let ao := create_audio_output p5 dsp_rnbo dsp_num_outputs
      let ai : Option MainBox × Patcher :=
        if 0 < dsp_num_inputs then
          let a := create_audio_input ao.2 dsp_rnbo dsp_num_inputs
          (some a.1, a.2)
        else (none, ao.2)
      some ⟨ai.2, dsp_rnbo, dsp_sub, midiBoxes.map Prod.fst,
        midiBoxes.map Prod.snd, none, ao.1, ai.1⟩

/-- Python truthiness choice `x if x else d` for an optional integer
(`options[1] if options[1] else -1` in rnbo.py lines 939 and 963-965):
both `None` and `0` are falsy. -/
def truthyIntElse (x : Option Int) (d : Int) : Int :=
  match x with
  | some m => if m = 0 then d else m
  | none => d

/-- Embeds the voice-count selection of the effect branch of
`load_files_create_rnbo_patch` (rnbo.py line 939):
`nvoices if nvoices > 0 else options[1] if options[1] else -1`.
`nvoices` is the optional `--nvoices` CLI argument; when it is `None`,
Python evaluates `None > 0` and raises TypeError, modelled as `none`. -/
def selectNvoicesEffect (nvoices options_nvoices : Option Int) : Option Int :=
  match nvoices with
  | none => none
  | some n => some (if 0 < n then n else truthyIntElse options_nvoices (-1))

/-- Embeds the voice-count selection of the no-effect branch of
`load_files_create_rnbo_patch` (rnbo.py lines 961-965):
`nvoices if nvoices is not None and nvoices > 0 else options[1] if
options[1] else -1`.  The explicit `is not None` guard makes this branch
total. -/
def selectNvoicesNoEffect (nvoices options_nvoices : Option Int) : Int :=
  match nvoices with
  | some n => if 0 < n then n else truthyIntElse options_nvoices (-1)
  | none => truthyIntElse options_nvoices (-1)

/-! Concrete instances used by counterexample and code-bug theorems. -/

/-- A subpatch already holding a codebox (id 0) and a "set" relay (id 1),
as `add_midi_control` receives it from the parameter loop. -/
def subPW : SubPatch := ⟨[⟨0, "codebox~", "c"⟩, ⟨1, "textbox", "set wheel"⟩], [], 2⟩

/-- A slider parameter bound to MIDI pitchwheel, range 0..1. -/
def pwItem : Item := ⟨"wheel", "nentry", 0, 0, 1, 1, ["pitchwheel"]⟩

/-- A slider parameter bound to MIDI controller 7, range 10..20. -/
def ctrlItem : Item := ⟨"vol", "nentry", 0, 10, 20, 1, ["ctrl", "7"]⟩

/-- A full conversion: DSP 1-in/1-out with MIDI on, effect 1-in/1-out. -/
def examplePatch1 : Option PatchResult :=
  create_rnbo_patch "mydsp" "code" [] 1 1 true (-1) (some "fxcode") [] 1 1
    false false "ep" "cf"

/-- Check on `examplePatch1`: the effect rnbo~ box is titled "Effect" but
carries the MIDI-enabled port plan (max(1,1)+3 = 4 outlets) and the
global midiin box is wired into its right-most inlet. -/
def c1check : Bool :=
  match examplePatch1 with
  | some r =>
    match r.effect, r.midiIn with
    | some ef, some mi =>
      decide ((⟨mi.id, ef.1.id, 0, ef.1.numinlets - 1⟩ : Line) ∈ r.patcher.lines)
        && (ef.1.numoutlets == 4) && (ef.1.text == "Effect")
    | _, _ => false
  | none => false

/-- Check on `examplePatch1`: the adc~ box is wired into the DSP rnbo~
box (a different box than the effect), and no line runs from the adc~ box
to the effect. -/
def c6check : Bool :=
  match examplePatch1 with
  | some r =>
    match r.effect, r.audioIn with
    | some ef, some a =>
      decide ((⟨a.id, r.dsp.id, 0, 0⟩ : Line) ∈ r.patcher.lines)
        && (!(r.dsp.id == ef.1.id))
        && r.patcher.lines.all (fun l => !(l.src == a.id && l.dst == ef.1.id))
    | _, _ => false
  | none => false

/-- A unit with zero audio inputs and one output, MIDI off. -/
def c8obj : Option (MainBox × SubPatch × Patcher) :=
  add_rnbo_object Patcher.empty "dsp" "code" [] false 0 false 0 1

/-- A sample rnbo~ box used to instantiate connection lemmas. -/
def mbA : MainBox := ⟨0, "rnbo", "a", 1, 4, none, [], []⟩

/-- A second sample rnbo~ box used to instantiate connection lemmas. -/
def mbB : MainBox := ⟨1, "rnbo", "b", 2, 5, none, [], []⟩

/-- A slider parameter carrying an unsupported MIDI control class. -/
def c7item : Item := ⟨"cutoff", "nentry", 5, 0, 10, 1, ["foo", "1"]⟩

/-- A concrete loop state (empty patcher, subpatch `subPW`). -/
def c7state : BuildState := ⟨Patcher.empty, subPW, none, none, none, false, false⟩

/-- Placeholder result used only as the default of `Option.getD`. -/
def dummyResult : PatchResult :=
  ⟨Patcher.empty, mbA, SubPatch.empty, none, none, none, mbA, none⟩

/-- The (computed) result of `examplePatch1`. -/
def examplePatch1R : PatchResult := examplePatch1.getD dummyResult

/-- A conversion without an effect: DSP 1-in/2-out, MIDI off. -/
def examplePatch2 : Option PatchResult :=
  create_rnbo_patch "mydsp" "code" [] 1 2 false 0 none [] 0 0 false false
    "ep" "cf"

/-- The (computed) result of `examplePatch2`. -/
def examplePatch2R : PatchResult := examplePatch2.getD dummyResult

/-- Parameters of a polyphonic synth: freq, gain and gate roles. -/
def c5items : List Item :=
  [⟨"voice_freq", "nentry", 440, 20, 2000, 1, []⟩,
   ⟨"voice_gain", "nentry", 0, 0, 1, 1, []⟩,
   ⟨"voice_gate", "button", 0, 0, 1, 1, []⟩]

def c5obj : Option (MainBox × SubPatch × Patcher) :=
  add_rnbo_object Patcher.empty "poly" "code" c5items true 4 false 0 2

def c5objR : MainBox × SubPatch × Patcher :=
  c5obj.getD (mbA, SubPatch.empty, Patcher.empty)

def c5items2 : List Item :=
  [⟨"voice_freq", "nentry", 440, 20, 2000, 1, []⟩,
   ⟨"voice_gain", "nentry", 0, 0, 1, 1, []⟩]

def c5obj2 : Option (MainBox × SubPatch × Patcher) :=
  add_rnbo_object Patcher.empty "poly" "code" c5items2 true 4 false 0 2

def c5obj2R : MainBox × SubPatch × Patcher :=
  c5obj2.getD (mbA, SubPatch.empty, Patcher.empty)


/-! Claim theorems. -/

/-- C2 (code bug): for a pitchwheel-bound parameter the input rescale box
maps -1..1 onto [min,max] as claimed, but the output rescale box emitted
by `add_midi_control` is `scale min max -1 -1` — target range -1..-1, not
the claimed bipolar -1..1 (rnbo.py line 282, a slip: the function's own
comment says "@bendmode 1 (-1, 1) mode").  Other control classes use
0..127 in both directions as claimed. -/
theorem c2_pitchwheel_out_scaling_bug :
    ((add_midi_control pwItem subPW ⟨1, "textbox", "set wheel"⟩
        ⟨0, "codebox~", "c"⟩).1.boxes.map SubBox.text
      = ["c", "set wheel", "bendin @bendmode 1 ", "bendout @bendmode 1 ",
         "scale -1 1 0 1", "scale 0 1 -1 -1"])
  ∧ ((add_midi_control pwItem subPW ⟨1, "textbox", "set wheel"⟩
        ⟨0, "codebox~", "c"⟩).1.lines
      = [⟨2, 4, 0, 0⟩, ⟨4, 1, 0, 0⟩, ⟨0, 5, 0, 0⟩, ⟨5, 3, 0, 0⟩])
  ∧ ((add_midi_control ctrlItem subPW ⟨1, "textbox", "set wheel"⟩
        ⟨0, "codebox~", "c"⟩).1.boxes.map SubBox.text
      = ["c", "set wheel", "ctlin 7", "ctlout 7",
         "scale 0 127 10 20", "scale 10 20 0 127"])
  ∧ "scale 0 1 -1 -1" ≠ "scale 0 1 -1 1" := by
  refine ⟨by decide, by decide, by decide, by decide⟩

/-- C1 (counterexample): with the global MIDI flag on, the effect unit is
not built with an empty MIDI flag — it gets the MIDI-enabled port plan
(4 outlets for 1 signal output) and the global midiin box is connected
into its right-most inlet (rnbo.py lines 822 and 845-846). -/
theorem c1_counterexample : c1check = true := by decide

/-- C6 (counterexample): in a patch with an effect unit and a DSP with
one input, the adc~ box is wired to the DSP rnbo~ box — not to the last
unit of the signal chain (the effect), to which no adc~ line runs
(rnbo.py line 862). -/
theorem c6_counterexample : c6check = true := by decide

/-- C3 (counterexample): for a MIDI-enabled unit with 2 inputs and 0
outputs, `generate_io_info` reports 4 outlets but the emitted MIDI outlet
IOInfo entry carries index 2 (the value leaked from the inlet loop), not
`num_outlets - 3 = 1`. -/
theorem c3_counterexample :
    generate_io_info true 2 0 = some (3, 4,
      [⟨"", 1, "in1", "signal"⟩, ⟨"", 2, "in2", "signal"⟩,
       ⟨"", 3, "in3", "midi"⟩],
      [⟨"", 2, "out2", "midi"⟩])
  ∧ (2 : Nat) ≠ 4 - 3 := by
  refine ⟨by decide, by decide⟩

/-- C10 (code bug): `generate_io_info` is not total — with MIDI enabled
and zero inputs and outputs the Python function raises UnboundLocalError
(modelled `none`); and when it does return, the MIDI outlet entry reuses
the loop index of the last signal entry (index 2, tag "out2" duplicated
below) instead of carrying its own index. -/
theorem c10_generate_io_info_bug :
    generate_io_info true 0 0 = none
  ∧ generate_io_info true 1 2 = some (2, 5,
      [⟨"", 1, "in1", "signal"⟩, ⟨"", 2, "in2", "midi"⟩],
      [⟨"", 1, "out1", "signal"⟩, ⟨"", 2, "out2", "signal"⟩,
       ⟨"", 2, "out2", "midi"⟩]) := by
  refine ⟨by decide, by decide⟩

/-- C8 (code bug): the placeholder invariant holds wherever the planner
returns (1 inlet for a MIDI-off zero-input unit, 2 for MIDI-on, and the
`in~ 1` placeholder box id 1 wired into codebox id 0 exactly in the
zero-input build), but for a MIDI-enabled unit with zero inputs and zero
outputs the planner raises UnboundLocalError instead of producing the
claimed plan, so no sub-patch is built at all on that input. -/
theorem c8_zero_inputs_crash :
    generate_io_info true 0 0 = none
  ∧ (generate_io_info false 0 7).map (fun r => r.1) = some 1
  ∧ (generate_io_info true 0 7).map (fun r => r.1) = some 2
  ∧ (c8obj.map fun r =>
      decide ((⟨1, "textbox", "in~ 1"⟩ : SubBox) ∈ r.2.1.boxes)
        && decide ((⟨1, 0, 0, 0⟩ : Line) ∈ r.2.1.lines)) = some true := by
  refine ⟨by decide, by decide, by decide, by decide⟩

/-- C9 (counterexample): with both effect files given and no `--nvoices`
argument (`nvoices = None`), the effect branch's voice-count selection
`nvoices if nvoices > 0 else …` evaluates `None > 0` and raises TypeError
(modelled `none`) — the conversion does not proceed. -/
theorem c9_counterexample : selectNvoicesEffect none (some 4) = none := rfl

/-- C9 (amended): the effect branch's voice-count selection is
well-defined exactly when `nvoices` is an integer, in which case it
agrees with the guarded no-effect selection; on `nvoices = None` it
raises, unlike the no-effect branch whose `is not None` guard makes it
total. -/
theorem c9_amended (nv opt : Option Int) :
    (selectNvoicesEffect nv opt = none ↔ nv = none)
  ∧ selectNvoicesEffect nv opt
      = nv.map (fun n => selectNvoicesNoEffect (some n) opt) := by
  cases nv <;> simp [selectNvoicesEffect, selectNvoicesNoEffect]

/-- C4 (confirmed): `connect_dsp_effect` adds exactly the edges of the
channel-adaptation table — (2,1): DSP outlets 0 and 1 both into effect
inlet 0; (1,2): DSP outlet 0 into effect inlets 0 and 1; (1,1): one
direct edge; (2,2): two parallel edges; any other channel-count pair adds
no edge. -/
theorem c4_connect_dsp_effect_table (p : Patcher) (d f : MainBox) :
    ((connect_dsp_effect p d f 2 1).lines
       = p.lines ++ [⟨d.id, f.id, 0, 0⟩, ⟨d.id, f.id, 1, 0⟩])
  ∧ ((connect_dsp_effect p d f 1 2).lines
       = p.lines ++ [⟨d.id, f.id, 0, 0⟩, ⟨d.id, f.id, 0, 1⟩])
  ∧ ((connect_dsp_effect p d f 1 1).lines = p.lines ++ [⟨d.id, f.id, 0, 0⟩])
  ∧ ((connect_dsp_effect p d f 2 2).lines
       = p.lines ++ [⟨d.id, f.id, 0, 0⟩, ⟨d.id, f.id, 1, 1⟩])
  ∧ ∀ a b : Nat, ¬((a = 1 ∨ a = 2) ∧ (b = 1 ∨ b = 2)) →
      (connect_dsp_effect p d f a b).lines = p.lines := by
  refine ⟨?_, ?_, ?_, ?_, ?_⟩
  · simp [connect_dsp_effect, Patcher.addLine]
  · simp [connect_dsp_effect, Patcher.addLine]
  · simp [connect_dsp_effect, Patcher.addLine]
  · simp [connect_dsp_effect, Patcher.addLine]
  · intro a b h
    unfold connect_dsp_effect
    split <;> simp_all [Patcher.addLine]

/-- C4 witness: the table instantiated on an empty patcher and the two
sample boxes, including a skipped (3,1) pairing. -/
theorem c4_witness :
    ((connect_dsp_effect Patcher.empty mbA mbB 2 1).lines
       = Patcher.empty.lines ++ [⟨mbA.id, mbB.id, 0, 0⟩, ⟨mbA.id, mbB.id, 1, 0⟩])
  ∧ ((connect_dsp_effect Patcher.empty mbA mbB 1 2).lines
       = Patcher.empty.lines ++ [⟨mbA.id, mbB.id, 0, 0⟩, ⟨mbA.id, mbB.id, 0, 1⟩])
  ∧ ((connect_dsp_effect Patcher.empty mbA mbB 1 1).lines
       = Patcher.empty.lines ++ [⟨mbA.id, mbB.id, 0, 0⟩])
  ∧ ((connect_dsp_effect Patcher.empty mbA mbB 2 2).lines
       = Patcher.empty.lines ++ [⟨mbA.id, mbB.id, 0, 0⟩, ⟨mbA.id, mbB.id, 1, 1⟩])
  ∧ (connect_dsp_effect Patcher.empty mbA mbB 3 1).lines
       = Patcher.empty.lines := by
  have h := c4_connect_dsp_effect_table Patcher.empty mbA mbB
  exact ⟨h.1, h.2.1, h.2.2.1, h.2.2.2.1, h.2.2.2.2 3 1 (by decide)⟩

/-- C3 (amended): for units with at least one signal output, the claim
holds: with MIDI enabled `generate_io_info` yields
`max(1,num_inputs)+1` inlets with exactly one MIDI inlet entry in last
position, `num_outputs+3` outlets with the MIDI outlet entry carrying
index `num_outlets - 3` and all other entries tagged signal, and
`connect_midi` wires ports `numinlets - 1` and `numoutlets - 3`; with
MIDI disabled it yields `max(1,num_outputs)+2` outlets and only signal
entries.  (With zero signal outputs the MIDI outlet entry instead reuses
the leaked inlet loop index — see the counterexample.) -/
theorem c3_amended (ni no : Nat) (hno : 1 ≤ no) :
    (∃ ii oi,
      generate_io_info true ni no = some (max 1 ni + 1, no + 3, ii, oi)
      ∧ ii.getLast? = some ⟨"", max 1 ni + 1, "in" ++ toString (max 1 ni + 1), "midi"⟩
      ∧ (∀ e ∈ ii.dropLast, e.ioType = "signal")
      ∧ oi.getLast? = some ⟨"", no + 3 - 3, "out" ++ toString no, "midi"⟩
      ∧ (∀ e ∈ oi.dropLast, e.ioType = "signal"))
  ∧ (∃ ii oi,
      generate_io_info false ni no = some (max 1 ni, max 1 no + 2, ii, oi)
      ∧ (∀ e ∈ ii, e.ioType = "signal") ∧ (∀ e ∈ oi, e.ioType = "signal"))
  ∧ (∀ (p : Patcher) (rnbo mi mo : MainBox),
      (connect_midi p rnbo mi mo).lines
        = p.lines ++ [⟨mi.id, rnbo.id, 0, rnbo.numinlets - 1⟩,
                      ⟨rnbo.id, mo.id, rnbo.numoutlets - 3, 0⟩]) := by
  have h0 : 0 < no := hno
  have hmax : max 1 no = no := Nat.max_eq_right hno
  refine ⟨?_, ?_, ?_⟩
  · refine ⟨((List.range ni).map fun k =>
        ⟨"", k + 1, "in" ++ toString (k + 1), "signal"⟩)
        ++ [⟨"", max 1 ni + 1, "in" ++ toString (max 1 ni + 1), "midi"⟩],
      ((List.range no).map fun k =>
        ⟨"", k + 1, "out" ++ toString (k + 1), "signal"⟩)
        ++ [⟨"", no, "out" ++ toString no, "midi"⟩], ?_, ?_, ?_, ?_, ?_⟩
    · simp [generate_io_info, h0, hmax]
    · simp
    · simp
    · simp [Nat.add_sub_cancel]
    · simp
  · refine ⟨(List.range ni).map fun k =>
        ⟨"", k + 1, "in" ++ toString (k + 1), "signal"⟩,
      (List.range no).map fun k =>
        ⟨"", k + 1, "out" ++ toString (k + 1), "signal"⟩, ?_, ?_, ?_⟩
    · simp [generate_io_info]
    · simp
    · simp
  · intro p rnbo mi mo
    simp [connect_midi, Patcher.addLine]

/-- C3 witness: the amended statement instantiated at one input and one
output. -/
theorem c3_amended_witness :
    (∃ ii oi,
      generate_io_info true 1 1 = some (max 1 1 + 1, 1 + 3, ii, oi)
      ∧ ii.getLast? = some ⟨"", max 1 1 + 1, "in" ++ toString (max 1 1 + 1), "midi"⟩
      ∧ (∀ e ∈ ii.dropLast, e.ioType = "signal")
      ∧ oi.getLast? = some ⟨"", 1 + 3 - 3, "out" ++ toString 1, "midi"⟩
      ∧ (∀ e ∈ oi.dropLast, e.ioType = "signal"))
  ∧ (∃ ii oi,
      generate_io_info false 1 1 = some (max 1 1, max 1 1 + 2, ii, oi)
      ∧ (∀ e ∈ ii, e.ioType = "signal") ∧ (∀ e ∈ oi, e.ioType = "signal"))
  ∧ (∀ (p : Patcher) (rnbo mi mo : MainBox),
      (connect_midi p rnbo mi mo).lines
        = p.lines ++ [⟨mi.id, rnbo.id, 0, rnbo.numinlets - 1⟩,
                      ⟨rnbo.id, mo.id, rnbo.numoutlets - 3, 0⟩]) :=
  c3_amended 1 1 (by decide)

/-- C7 (confirmed): for a parameter whose MIDI binding's first token is
unsupported, `add_midi_control` returns `false` leaving the subpatch
unchanged (no MIDI boxes or lines), while the parameter-loop iteration
still succeeds and adds exactly the non-MIDI control wiring ("set" relay
box, param box, param → set and set → codebox edges), and the loop
continues with the remaining parameters. -/
theorem c7_unsupported_midi_class (midi : Bool) (nv : Int) (test : Bool)
    (rnbo : MainBox) (codebox : SubBox) (st : BuildState) (item : Item)
    (ty : String) (args : List String)
    (hmidi : item.midi = ty :: args) (hun : midi_mapping ty = none)
    (hkind : item.itemType = "button" ∨ item.itemType = "checkbox" ∨ item.step ≠ 0) :
    (∀ (sub : SubPatch) (sp cb : SubBox), add_midi_control item sub sp cb = (sub, false))
  ∧ ∃ st', process_item midi nv test rnbo codebox st item = some st'
      ∧ (∃ ptext, st'.sub.boxes = st.sub.boxes ++
          [⟨st.sub.nextId, "textbox",
            "set " ++ build_label item.itemType item.shortname test⟩,
           ⟨st.sub.nextId + 1, "textbox", ptext⟩])
      ∧ st'.sub.lines = st.sub.lines ++
          [⟨st.sub.nextId + 1, st.sub.nextId, 0, 0⟩,
           ⟨st.sub.nextId, codebox.id, 0, 0⟩]
      ∧ ∀ rest, process_items midi nv test rnbo codebox (item :: rest) st
          = process_items midi nv test rnbo codebox rest st' := by
  have hamc : ∀ (sub : SubPatch) (sp cb : SubBox),
      add_midi_control item sub sp cb = (sub, false) := by
    intro sub sp cb
    simp [add_midi_control, hmidi, hun]
  refine ⟨hamc, ?_⟩
  by_cases hbc : item.itemType = "button" ∨ item.itemType = "checkbox"
  · simp only [process_item, hbc, if_true, SubPatch.addTextbox]
    refine ⟨_, rfl, ⟨"param " ++ build_label item.itemType item.shortname test
      ++ " 0 @min 0 @max 1", ?_⟩, ?_, ?_⟩
    · cases midi <;>
        simp [finish_item, SubPatch.addTextbox, SubPatch.addLine, hamc]
    · cases midi <;>
        simp [finish_item, SubPatch.addTextbox, SubPatch.addLine, hamc]
    · intro rest
      simp [process_items, process_item, hbc, SubPatch.addTextbox]
  · have hstep : item.step ≠ 0 := by
      rcases hkind with h | h | h
      · exact absurd (Or.inl h) hbc
      · exact absurd (Or.inr h) hbc
      · exact h
    simp only [process_item, hbc, if_false, SubPatch.addTextbox, hstep,
      ite_false, if_neg hstep]
    refine ⟨_, rfl, ⟨"param " ++ build_label item.itemType item.shortname test
      ++ " " ++ toString item.init ++ " @min " ++ toString item.min
      ++ " @max " ++ toString item.max, ?_⟩, ?_, ?_⟩
    · cases midi <;>
        simp [finish_item, SubPatch.addTextbox, SubPatch.addLine, hamc]
    · cases midi <;>
        simp [finish_item, SubPatch.addTextbox, SubPatch.addLine, hamc]
    · intro rest
      simp [process_items, process_item, hbc, hstep, SubPatch.addTextbox]

/-- C7 witness: the unsupported class "foo" on a concrete slider item in
a concrete MIDI-enabled loop state. -/
theorem c7_witness :
    add_midi_control c7item subPW ⟨1, "textbox", "set wheel"⟩ ⟨0, "codebox~", "c"⟩
      = (subPW, false)
  ∧ (process_item true 4 false mbA ⟨0, "codebox~", "c"⟩ c7state c7item).isSome = true := by
  have h := c7_unsupported_midi_class true 4 false mbA ⟨0, "codebox~", "c"⟩
    c7state c7item "foo" ["1"] (by decide) (by decide)
    (Or.inr (Or.inr (by decide)))
  refine ⟨h.1 _ _ _, ?_⟩
  obtain ⟨st', hst', -⟩ := h.2
  simp [hst']

/-! Helper lemmas about the Topology Assembler, shared by several
claim theorems. -/

/-- Port counts returned by `generate_io_info` whenever it returns. -/
theorem generate_io_info_counts (midi : Bool) (ni no : Nat)
    (io : Nat × Nat × List IOEntry × List IOEntry)
    (h : generate_io_info midi ni no = some io) :
    io.1 = (if midi then max 1 ni + 1 else max 1 ni)
  ∧ io.2.1 = (if midi then max 1 no + 3 else max 1 no + 2) := by
  cases midi with
  | false =>
    simp [generate_io_info] at h
    simp [← h]
  | true =>
    by_cases h1 : 0 < no
    · simp [generate_io_info, h1] at h
      simp [← h]
    · by_cases h2 : 0 < ni
      · simp [generate_io_info, h1, h2] at h
        simp [← h]
      · simp [generate_io_info, h1, h2] at h

/-- Shape of the rnbo~ box built by `add_rnbo_object`: kind, title, id,
polyphony attribute and port counts. -/
theorem add_rnbo_object_spec (p : Patcher) (name code : String)
    (items : List Item) (midi : Bool) (nv : Int) (test : Bool) (ni no : Nat)
    (b : MainBox) (sub : SubPatch) (p' : Patcher)
    (h : add_rnbo_object p name code items midi nv test ni no = some (b, sub, p')) :
    b.kind = "rnbo" ∧ b.text = name ∧ b.id = p.nextId
  ∧ b.polyphony = (if midi && decide (0 < nv) then some nv else none)
  ∧ b.numinlets = (if midi then max 1 ni + 1 else max 1 ni)
  ∧ b.numoutlets = (if midi then max 1 no + 3 else max 1 no + 2) := by
  simp only [add_rnbo_object, Option.bind_eq_some, Option.map_eq_some',
    Prod.mk.injEq] at h
  obtain ⟨io, hio, st, hst, hb, hsub, hp⟩ := h
  obtain ⟨hc1, hc2⟩ := generate_io_info_counts midi ni no io hio
  subst hb
  simp [Patcher.addRnbo, hc1, hc2]

/-- Effect of `connect_midi` on the edge list. -/
theorem connect_midi_lines (p : Patcher) (rnbo mi mo : MainBox) :
    (connect_midi p rnbo mi mo).lines
      = p.lines ++ [⟨mi.id, rnbo.id, 0, rnbo.numinlets - 1⟩,
                    ⟨rnbo.id, mo.id, rnbo.numoutlets - 3, 0⟩] := by
  simp [connect_midi, Patcher.addLine]

/-- The channel-adaptation step only appends edges. -/
theorem mem_connect_dsp_effect (p : Patcher) (d f : MainBox) (a b : Nat)
    (l : Line) (hl : l ∈ p.lines) :
    l ∈ (connect_dsp_effect p d f a b).lines := by
  unfold connect_dsp_effect
  split <;> simp [Patcher.addLine, hl]

/-- The export machinery only appends edges. -/
theorem mem_add_compile_test (p : Patcher) (rnbo : MainBox) (ep cf : String)
    (l : Line) (hl : l ∈ p.lines) :
    l ∈ (add_compile_test p rnbo ep cf).lines := by
  simp [add_compile_test, Patcher.addTextbox, Patcher.addMessage,
    Patcher.addLine, hl]

/-- Shape of the dac~ box and of the edges added by
`create_audio_output`. -/
theorem create_audio_output_spec (p : Patcher) (rnbo : MainBox) (n : Nat) :
    (create_audio_output p rnbo n).1
      = ⟨p.nextId + 1, "textbox", chanText "dac~" n, n, 0, none, [], []⟩
  ∧ (create_audio_output p rnbo n).2.lines
      = p.lines ++ ⟨p.nextId, p.nextId + 1, 0, 0⟩ ::
          (List.range n).map (fun i => ⟨rnbo.id, p.nextId + 1, i, i⟩) := by
  simp [create_audio_output, Patcher.addTextbox, Patcher.addTextboxIO,
    Patcher.addLine, Patcher.addLines]

/-- Shape of the adc~ box and of the edges added by
`create_audio_input`. -/
theorem create_audio_input_spec (p : Patcher) (rnbo : MainBox) (n : Nat) :
    (create_audio_input p rnbo n).1
      = ⟨p.nextId, "textbox", chanText "adc~" n, 0, n, none, [], []⟩
  ∧ (create_audio_input p rnbo n).2.lines
      = p.lines ++ (List.range n).map (fun i => ⟨p.nextId, rnbo.id, i, i⟩) := by
  simp [create_audio_input, Patcher.addTextboxIO, Patcher.addLines]

/-- The optional compile step preserves edges. -/
theorem mem_compile_opt (q : Patcher) (b : MainBox) (comp : Bool)
    (ep cf : String) (l : Line) (hl : l ∈ q.lines) :
    l ∈ (if comp = true then add_compile_test q b ep cf else q).lines := by
  by_cases hc : comp = true
  · rw [if_pos hc]
    exact mem_add_compile_test q b ep cf l hl
  · rw [if_neg hc]
    exact hl

/-- `create_audio_output` preserves edges. -/
theorem mem_create_audio_output (q : Patcher) (b : MainBox) (n : Nat)
    (l : Line) (hl : l ∈ q.lines) :
    l ∈ (create_audio_output q b n).2.lines := by
  rw [(create_audio_output_spec q b n).2]
  exact List.mem_append_left _ hl

/-- `create_audio_input` preserves edges. -/
theorem mem_create_audio_input (q : Patcher) (b : MainBox) (n : Nat)
    (l : Line) (hl : l ∈ q.lines) :
    l ∈ (create_audio_input q b n).2.lines := by
  rw [(create_audio_input_spec q b n).2]
  exact List.mem_append_left _ hl

/-- The optional adc~ step preserves edges. -/
theorem mem_audio_in_opt (q : Patcher) (b : MainBox) (dni : Nat) (l : Line)
    (hl : l ∈ q.lines) :
    l ∈ ((if 0 < dni then
        ((some (create_audio_input q b dni).1 : Option MainBox),
          (create_audio_input q b dni).2)
      else (none, q)).2).lines := by
  by_cases hdni : 0 < dni
  · rw [if_pos hdni]
    exact mem_create_audio_input q b dni l hl
  · rw [if_neg hdni]
    exact hl

set_option maxHeartbeats 1000000 in
/-- Characterization of the effect path of `create_rnbo_patch`: shape of
the effect box (built with the global MIDI flag and `nvoices = -1`), the
midiin/midiout wiring to the effect, and the audio terminal wiring. -/
theorem create_effect_case (dn dc : String) (di : List Item) (dni dno : Nat)
    (midi : Bool) (nv : Int) (ec : String) (ei : List Item) (eni eno : Nat)
    (comp test : Bool) (ep cf : String) (r : PatchResult)
    (hec : ec ≠ "")
    (h : create_rnbo_patch dn dc di dni dno midi nv (some ec) ei eni eno
        comp test ep cf = some r) :
    ∃ ef esub, r.effect = some (ef, esub)
      ∧ ef.kind = "rnbo" ∧ ef.text = "Effect" ∧ ef.polyphony = none
      ∧ ef.numinlets = (if midi then max 1 eni + 1 else max 1 eni)
      ∧ ef.numoutlets = (if midi then max 1 eno + 3 else max 1 eno + 2)
      ∧ (midi = true → ∃ mi mo, r.midiIn = some mi ∧ r.midiOut = some mo
          ∧ mi.text = "midiin" ∧ mo.text = "midiout"
          ∧ (⟨mi.id, ef.id, 0, ef.numinlets - 1⟩ : Line) ∈ r.patcher.lines
          ∧ (⟨ef.id, mo.id, ef.numoutlets - 3, 0⟩ : Line) ∈ r.patcher.lines)
      ∧ (midi = false → r.midiIn = none ∧ r.midiOut = none)
      ∧ (∀ i, i < eno → (⟨ef.id, r.audioOut.id, i, i⟩ : Line) ∈ r.patcher.lines)
      ∧ (0 < dni → ∃ ai, r.audioIn = some ai
          ∧ ∀ i, i < dni → (⟨ai.id, r.dsp.id, i, i⟩ : Line) ∈ r.patcher.lines)
      ∧ (dni = 0 → r.audioIn = none) := by
  have hstr : strTruthy (some ec) = true := by
    simp [strTruthy, hec]
  simp only [create_rnbo_patch, Option.bind_eq_some, hstr, if_true,
    Option.map_eq_some'] at h
  obtain ⟨dspRes, hdsp, effRes, heff, hr⟩ := h
  obtain ⟨hk, ht, hid, hpoly, hin, hout⟩ :=
    add_rnbo_object_spec _ _ _ _ _ _ _ _ _ effRes.1 effRes.2.1 effRes.2.2 heff
  subst hr
  refine ⟨effRes.1, effRes.2.1, rfl, hk, ht, ?_, hin, hout, ?_, ?_, ?_, ?_, ?_⟩
  · rw [hpoly]
    simp
  · intro hm
    subst hm
    simp only [if_true]
    refine ⟨_, _, rfl, rfl, rfl, rfl, ?_, ?_⟩ <;>
    · apply mem_audio_in_opt
      apply mem_create_audio_output
      apply mem_compile_opt
      rw [connect_midi_lines]
      simp
  · intro hm
    subst hm
    simp
  · intro i hi
    apply mem_audio_in_opt
    rw [(create_audio_output_spec _ _ _).1, (create_audio_output_spec _ _ _).2]
    apply List.mem_append_right
    simp only [List.mem_cons, List.mem_map, List.mem_range]
    exact Or.inr ⟨i, hi, rfl⟩
  · intro hdni
    rw [if_pos hdni]
    refine ⟨_, rfl, ?_⟩
    intro i hi
    rw [(create_audio_input_spec _ _ _).1, (create_audio_input_spec _ _ _).2]
    apply List.mem_append_right
    simp only [List.mem_map, List.mem_range]
    exact ⟨i, hi, rfl⟩
  · intro hdni
    have hn : ¬0 < dni := by omega
    rw [if_neg hn]

/-- Characterization of the no-effect path of `create_rnbo_patch`: no
effect box, dac~ fed by the DSP, adc~ into the DSP when inputs exist. -/
theorem create_plain_case (dn dc : String) (di : List Item) (dni dno : Nat)
    (midi : Bool) (nv : Int) (ei : List Item) (eni eno : Nat)
    (comp test : Bool) (ep cf : String) (r : PatchResult)
    (h : create_rnbo_patch dn dc di dni dno midi nv none ei eni eno
        comp test ep cf = some r) :
    r.effect = none
  ∧ (∀ i, i < dno → (⟨r.dsp.id, r.audioOut.id, i, i⟩ : Line) ∈ r.patcher.lines)
  ∧ (0 < dni → ∃ ai, r.audioIn = some ai
      ∧ ∀ i, i < dni → (⟨ai.id, r.dsp.id, i, i⟩ : Line) ∈ r.patcher.lines)
  ∧ (dni = 0 → r.audioIn = none) := by
  simp only [create_rnbo_patch, Option.bind_eq_some, strTruthy,
    Bool.false_eq_true, if_false, Option.some.injEq] at h
  obtain ⟨dspRes, hdsp, hr⟩ := h
  subst hr
  refine ⟨rfl, ?_, ?_, ?_⟩
  · intro i hi
    apply mem_audio_in_opt
    rw [(create_audio_output_spec _ _ _).1, (create_audio_output_spec _ _ _).2]
    apply List.mem_append_right
    simp only [List.mem_cons, List.mem_map, List.mem_range]
    exact Or.inr ⟨i, hi, rfl⟩
  · intro hdni
    rw [if_pos hdni]
    refine ⟨_, rfl, ?_⟩
    intro i hi
    rw [(create_audio_input_spec _ _ _).1, (create_audio_input_spec _ _ _).2]
    apply List.mem_append_right
    simp only [List.mem_map, List.mem_range]
    exact ⟨i, hi, rfl⟩
  · intro hdni
    have hn : ¬0 < dni := by omega
    rw [if_neg hn]

/-- C1 (amended): a present effect unit is built with name "Effect" and
is never polyphonic (`nvoices = -1`, no polyphony attribute), but its
MIDI flag follows the global `midi` flag: its outlet count is the
MIDI-enabled one exactly when `midi` is set, and with `midi` set the
global midiin/midiout boxes are also wired to the effect's right-most
inlet and third-from-right outlet. -/
theorem c1_amended (dn dc : String) (di : List Item) (dni dno : Nat)
    (midi : Bool) (nv : Int) (ec : String) (ei : List Item) (eni eno : Nat)
    (comp test : Bool) (ep cf : String) (r : PatchResult)
    (hec : ec ≠ "")
    (h : create_rnbo_patch dn dc di dni dno midi nv (some ec) ei eni eno
        comp test ep cf = some r) :
    ∃ ef esub, r.effect = some (ef, esub)
      ∧ ef.text = "Effect" ∧ ef.polyphony = none
      ∧ ef.numoutlets = (if midi then max 1 eno + 3 else max 1 eno + 2)
      ∧ (midi = true → ∃ mi mo, r.midiIn = some mi ∧ r.midiOut = some mo
          ∧ mi.text = "midiin" ∧ mo.text = "midiout"
          ∧ (⟨mi.id, ef.id, 0, ef.numinlets - 1⟩ : Line) ∈ r.patcher.lines
          ∧ (⟨ef.id, mo.id, ef.numoutlets - 3, 0⟩ : Line) ∈ r.patcher.lines) := by
  obtain ⟨ef, esub, h1, _, h3, h4, _, h6, h7, _⟩ :=
    create_effect_case dn dc di dni dno midi nv ec ei eni eno comp test ep cf
      r hec h
  exact ⟨ef, esub, h1, h3, h4, h6, h7⟩

/-- C1 witness: the amended statement on the concrete MIDI-enabled
conversion `examplePatch1`. -/
theorem c1_amended_witness :
    ∃ ef esub, examplePatch1R.effect = some (ef, esub)
      ∧ ef.text = "Effect" ∧ ef.polyphony = none
      ∧ ef.numoutlets = (if true then max 1 1 + 3 else max 1 1 + 2)
      ∧ (true = true → ∃ mi mo, examplePatch1R.midiIn = some mi
          ∧ examplePatch1R.midiOut = some mo
          ∧ mi.text = "midiin" ∧ mo.text = "midiout"
          ∧ (⟨mi.id, ef.id, 0, ef.numinlets - 1⟩ : Line)
              ∈ examplePatch1R.patcher.lines
          ∧ (⟨ef.id, mo.id, ef.numoutlets - 3, 0⟩ : Line)
              ∈ examplePatch1R.patcher.lines) :=
  c1_amended "mydsp" "code" [] 1 1 true (-1) "fxcode" [] 1 1 false false
    "ep" "cf" examplePatch1R (by decide) (by decide)

/-- C6 (amended): the dac~ box is wired (channel by channel) to the last
unit of the signal chain — the effect when present, else the DSP —
while the adc~ box, created exactly when the DSP has inputs, is always
wired into the DSP unit. -/
theorem c6_amended :
    (∀ (dn dc : String) (di : List Item) (dni dno : Nat) (midi : Bool)
        (nv : Int) (ec : String) (ei : List Item) (eni eno : Nat)
        (comp test : Bool) (ep cf : String) (r : PatchResult), ec ≠ "" →
      create_rnbo_patch dn dc di dni dno midi nv (some ec) ei eni eno
          comp test ep cf = some r →
      ∃ ef esub, r.effect = some (ef, esub)
        ∧ (∀ i, i < eno → (⟨ef.id, r.audioOut.id, i, i⟩ : Line) ∈ r.patcher.lines)
        ∧ (0 < dni → ∃ ai, r.audioIn = some ai
            ∧ ∀ i, i < dni → (⟨ai.id, r.dsp.id, i, i⟩ : Line) ∈ r.patcher.lines)
        ∧ (dni = 0 → r.audioIn = none))
  ∧ (∀ (dn dc : String) (di : List Item) (dni dno : Nat) (midi : Bool)
        (nv : Int) (ei : List Item) (eni eno : Nat) (comp test : Bool)
        (ep cf : String) (r : PatchResult),
      create_rnbo_patch dn dc di dni dno midi nv none ei eni eno
          comp test ep cf = some r →
      r.effect = none
        ∧ (∀ i, i < dno → (⟨r.dsp.id, r.audioOut.id, i, i⟩ : Line) ∈ r.patcher.lines)
        ∧ (0 < dni → ∃ ai, r.audioIn = some ai
            ∧ ∀ i, i < dni → (⟨ai.id, r.dsp.id, i, i⟩ : Line) ∈ r.patcher.lines)
        ∧ (dni = 0 → r.audioIn = none)) := by
  constructor
  · intro dn dc di dni dno midi nv ec ei eni eno comp test ep cf r hec h
    obtain ⟨ef, esub, h1, _, _, _, _, _, _, _, h9, h10, h11⟩ :=
      create_effect_case dn dc di dni dno midi nv ec ei eni eno comp test
        ep cf r hec h
    exact ⟨ef, esub, h1, h9, h10, h11⟩
  · intro dn dc di dni dno midi nv ei eni eno comp test ep cf r h
    exact create_plain_case dn dc di dni dno midi nv ei eni eno comp test
      ep cf r h

/-- C6 witness: both cases of the amended statement, on the concrete
conversions `examplePatch1` (with effect) and `examplePatch2`
(without). -/
theorem c6_amended_witness :
    (∃ ef esub, examplePatch1R.effect = some (ef, esub)
      ∧ (∀ i, i < 1 → (⟨ef.id, examplePatch1R.audioOut.id, i, i⟩ : Line)
          ∈ examplePatch1R.patcher.lines)
      ∧ (0 < 1 → ∃ ai, examplePatch1R.audioIn = some ai
          ∧ ∀ i, i < 1 → (⟨ai.id, examplePatch1R.dsp.id, i, i⟩ : Line)
              ∈ examplePatch1R.patcher.lines)
      ∧ (1 = 0 → examplePatch1R.audioIn = none))
  ∧ (examplePatch2R.effect = none
      ∧ (∀ i, i < 2 → (⟨examplePatch2R.dsp.id, examplePatch2R.audioOut.id, i, i⟩ : Line)
          ∈ examplePatch2R.patcher.lines)
      ∧ (0 < 1 → ∃ ai, examplePatch2R.audioIn = some ai
          ∧ ∀ i, i < 1 → (⟨ai.id, examplePatch2R.dsp.id, i, i⟩ : Line)
              ∈ examplePatch2R.patcher.lines)
      ∧ (1 = 0 → examplePatch2R.audioIn = none)) :=
  ⟨c6_amended.1 "mydsp" "code" [] 1 1 true (-1) "fxcode" [] 1 1 false false
      "ep" "cf" examplePatch1R (by decide) (by decide),
   c6_amended.2 "mydsp" "code" [] 1 2 false 0 [] 0 0 false false
      "ep" "cf" examplePatch2R (by decide)⟩

/-- A string with the concrete prefix `p` differs from `u` unless `u`
begins with `p`. -/
theorem append_ne (p t u : String)
    (h : ¬(p.data.length ≤ u.data.length ∧ u.data.take p.data.length = p.data)) :
    p ++ t ≠ u := by
  intro he
  apply h
  have hd : p.data ++ t.data = u.data := by
    rw [← String.data_append, he]
  constructor
  · rw [← hd]
    simp
  · rw [← hd, List.take_left]




/-- Exact boxes and edges of the polyphony sub-graph in the
frequency/gain modes. -/
theorem add_polyphony_control_spec (sub : SubPatch) (pb gb tb : SubBox) :
    (add_polyphony_control sub pb gb tb true true).boxes
      = sub.boxes ++ [⟨sub.nextId, "textbox", "notein"⟩,
          ⟨sub.nextId + 1, "textbox", "mtof"⟩,
          ⟨sub.nextId + 2, "textbox", "scale 0 127 0 1"⟩,
          ⟨sub.nextId + 3, "textbox", "> 0"⟩]
  ∧ (add_polyphony_control sub pb gb tb true true).lines
      = sub.lines ++ [⟨sub.nextId, sub.nextId + 1, 0, 0⟩,
          ⟨sub.nextId + 1, pb.id, 0, 0⟩,
          ⟨sub.nextId, sub.nextId + 2, 1, 0⟩,
          ⟨sub.nextId + 2, gb.id, 0, 0⟩,
          ⟨sub.nextId, sub.nextId + 3, 1, 0⟩,
          ⟨sub.nextId + 3, tb.id, 0, 0⟩] := by
  simp [add_polyphony_control, SubPatch.addTextbox, SubPatch.addLine]

/-- `add_midi_control` only appends boxes and edges. -/
theorem add_midi_control_mono (it : Item) (sub : SubPatch) (sp cb : SubBox) :
    (∀ b ∈ sub.boxes, b ∈ (add_midi_control it sub sp cb).1.boxes)
  ∧ (∀ l ∈ sub.lines, l ∈ (add_midi_control it sub sp cb).1.lines) := by
  unfold add_midi_control
  cases hm : it.midi with
  | nil => simp
  | cons ty rest =>
    cases hmap : midi_mapping ty with
    | none => simp [hmap]
    | some names =>
      constructor
      · intro b hb
        simp [hmap, SubPatch.addTextbox, SubPatch.addLine, hb]
      · intro l hl
        simp [hmap, SubPatch.addTextbox, SubPatch.addLine, hl]

/-- `add_midi_control` never adds a bare "notein" textbox (its MIDI
receive boxes always carry a trailing space and arguments). -/
theorem add_midi_control_no_notein (it : Item) (sub : SubPatch) (sp cb : SubBox)
    (h : ∀ b ∈ sub.boxes, b.kind = "textbox" → b.text ≠ "notein") :
    ∀ b ∈ (add_midi_control it sub sp cb).1.boxes,
      b.kind = "textbox" → b.text ≠ "notein" := by
  unfold add_midi_control
  cases hm : it.midi with
  | nil => simpa using h
  | cons ty rest =>
    cases hmap : midi_mapping ty with
    | none => simpa [hmap] using h
    | some names =>
      intro b hb hk
      simp only [hmap, SubPatch.addTextbox, SubPatch.addLine, List.append_assoc,
        List.mem_append, List.mem_singleton, List.mem_cons, List.mem_nil_iff,
        or_false] at hb
      rcases hb with hb | hb | hb | hb | hb
      · exact h b hb hk
      · -- midi-in box: names.1 ++ " " ++ args
        subst hb
        have : (ty = "ctrl" ∧ names = ("ctlin", "ctlout"))
            ∨ (ty = "chanpress" ∧ names = ("touchin", "touchout"))
            ∨ (ty = "keyon" ∧ names = ("notein", "noteout"))
            ∨ (ty = "keyoff" ∧ names = ("notein", "noteout"))
            ∨ (ty = "key" ∧ names = ("notein", "noteout"))
            ∨ (ty = "pitchwheel" ∧ names = ("bendin @bendmode 1", "bendout @bendmode 1"))
            ∨ (ty = "pgm" ∧ names = ("pgmin", "pgmout")) := by
          unfold midi_mapping at hmap
          split_ifs at hmap <;> simp_all
        rcases this with ⟨-, rfl⟩ | ⟨-, rfl⟩ | ⟨-, rfl⟩ | ⟨-, rfl⟩ | ⟨-, rfl⟩
          | ⟨-, rfl⟩ | ⟨-, rfl⟩ <;>
        · exact append_ne _ _ _ (by decide)
      · subst hb
        have : (ty = "ctrl" ∧ names = ("ctlin", "ctlout"))
            ∨ (ty = "chanpress" ∧ names = ("touchin", "touchout"))
            ∨ (ty = "keyon" ∧ names = ("notein", "noteout"))
            ∨ (ty = "keyoff" ∧ names = ("notein", "noteout"))
            ∨ (ty = "key" ∧ names = ("notein", "noteout"))
            ∨ (ty = "pitchwheel" ∧ names = ("bendin @bendmode 1", "bendout @bendmode 1"))
            ∨ (ty = "pgm" ∧ names = ("pgmin", "pgmout")) := by
          unfold midi_mapping at hmap
          split_ifs at hmap <;> simp_all
        rcases this with ⟨-, rfl⟩ | ⟨-, rfl⟩ | ⟨-, rfl⟩ | ⟨-, rfl⟩ | ⟨-, rfl⟩
          | ⟨-, rfl⟩ | ⟨-, rfl⟩ <;>
        · exact append_ne _ _ _ (by decide)
      · subst hb
        by_cases hpw : ty = "pitchwheel" <;>
          simp only [hpw, if_true, if_false, ite_true, ite_false] <;>
        · simp only [String.append_assoc]
          exact append_ne _ _ _ (by decide)
      · subst hb
        by_cases hpw : ty = "pitchwheel" <;>
          simp only [hpw, if_true, if_false, ite_true, ite_false] <;>
        · simp only [String.append_assoc]
          exact append_ne _ _ _ (by decide)

/-- The tail of a parameter-loop iteration keeps existing boxes/edges and
adds the param-to-relay and relay-to-codebox edges. -/
theorem finish_item_mem (m : Bool) (nv : Int) (cb : SubBox) (it : Item)
    (patcher : Patcher) (sub : SubPatch) (sp pm : SubBox) (st : BuildState) :
    (∀ b ∈ sub.boxes, b ∈ (finish_item m nv cb it patcher sub sp pm st).sub.boxes)
  ∧ (∀ l ∈ sub.lines, l ∈ (finish_item m nv cb it patcher sub sp pm st).sub.lines)
  ∧ (⟨pm.id, sp.id, 0, 0⟩ : Line) ∈ (finish_item m nv cb it patcher sub sp pm st).sub.lines
  ∧ (⟨sp.id, cb.id, 0, 0⟩ : Line) ∈ (finish_item m nv cb it patcher sub sp pm st).sub.lines := by
  unfold finish_item
  cases m with
  | false =>
    refine ⟨?_, ?_, ?_, ?_⟩
    · intro b hb
      simp [SubPatch.addLine, hb]
    · intro l hl
      simp [SubPatch.addLine, hl]
    · simp [SubPatch.addLine]
    · simp [SubPatch.addLine]
  | true =>
    refine ⟨?_, ?_, ?_, ?_⟩
    · intro b hb
      exact (add_midi_control_mono it _ sp cb).1 b (by simp [SubPatch.addLine, hb])
    · intro l hl
      exact (add_midi_control_mono it _ sp cb).2 l (by simp [SubPatch.addLine, hl])
    · exact (add_midi_control_mono it _ sp cb).2 _ (by simp [SubPatch.addLine])
    · exact (add_midi_control_mono it _ sp cb).2 _ (by simp [SubPatch.addLine])

/-- The tail of a parameter-loop iteration adds no "notein" textbox. -/
theorem finish_item_no_notein (m : Bool) (nv : Int) (cb : SubBox) (it : Item)
    (patcher : Patcher) (sub : SubPatch) (sp pm : SubBox) (st : BuildState)
    (h : ∀ b ∈ sub.boxes, b.kind = "textbox" → b.text ≠ "notein") :
    ∀ b ∈ (finish_item m nv cb it patcher sub sp pm st).sub.boxes,
      b.kind = "textbox" → b.text ≠ "notein" := by
  unfold finish_item
  cases m with
  | false => simpa [SubPatch.addLine] using h
  | true =>
    apply add_midi_control_no_notein
    simpa [SubPatch.addLine] using h

/-- How one parameter-loop iteration updates the polyphony accumulators:
exactly the elif chain of rnbo.py lines 519-533, driven by `roleOf`. -/
theorem process_item_roles (m : Bool) (nv : Int) (t : Bool) (rnbo : MainBox)
    (cb : SubBox) (st st' : BuildState) (it : Item)
    (h : process_item m nv t rnbo cb st it = some st') :
    st'.pitch = (if m && decide (0 < nv) then
        match roleOf it.shortname with
        | some PolyRole.pitchFreq =>
          some ⟨st.sub.nextId, "textbox",
            "set " ++ build_label it.itemType it.shortname t⟩
        | some PolyRole.pitchKey =>
          some ⟨st.sub.nextId, "textbox",
            "set " ++ build_label it.itemType it.shortname t⟩
        | _ => st.pitch
      else st.pitch)
  ∧ st'.is_freq = (if m && decide (0 < nv) then
        match roleOf it.shortname with
        | some PolyRole.pitchFreq => true
        | some PolyRole.pitchKey => false
        | _ => st.is_freq
      else st.is_freq)
  ∧ st'.gain = (if m && decide (0 < nv) then
        match roleOf it.shortname with
        | some PolyRole.gainDirect =>
          some ⟨st.sub.nextId, "textbox",
            "set " ++ build_label it.itemType it.shortname t⟩
        | some PolyRole.gainVel =>
          some ⟨st.sub.nextId, "textbox",
            "set " ++ build_label it.itemType it.shortname t⟩
        | _ => st.gain
      else st.gain)
  ∧ st'.is_gain = (if m && decide (0 < nv) then
        match roleOf it.shortname with
        | some PolyRole.gainDirect => true
        | some PolyRole.gainVel => false
        | _ => st.is_gain
      else st.is_gain)
  ∧ st'.gate = (if m && decide (0 < nv) then
        match roleOf it.shortname with
        | some PolyRole.gateRole =>
          some ⟨st.sub.nextId, "textbox",
            "set " ++ build_label it.itemType it.shortname t⟩
        | _ => st.gate
      else st.gate) := by
  by_cases hbc : it.itemType = "button" ∨ it.itemType = "checkbox"
  · simp only [process_item, hbc, if_true, SubPatch.addTextbox,
      Option.some.injEq] at h
    subst h
    cases hcond : (m && decide (0 < nv)) <;>
      rcases hrole : roleOf it.shortname with _ | r
    · simp [finish_item, hcond, hrole]
    · cases r <;> simp [finish_item, hcond, hrole]
    · simp [finish_item, hcond, hrole]
    · cases r <;> simp [finish_item, hcond, hrole]
  · by_cases hs : it.step = 0
    · simp [process_item, hbc, hs] at h
    · simp only [process_item, hbc, if_false, hs, SubPatch.addTextbox,
        Option.some.injEq, ite_false] at h
      subst h
      cases hcond : (m && decide (0 < nv)) <;>
        rcases hrole : roleOf it.shortname with _ | r
      · simp [finish_item, hcond, hrole]
      · cases r <;> simp [finish_item, hcond, hrole]
      · simp [finish_item, hcond, hrole]
      · cases r <;> simp [finish_item, hcond, hrole]

/-- Each processed parameter leaves its "set" relay box and its wiring
(param into relay, relay into codebox) in the subpatch. -/
theorem process_item_set_box (m : Bool) (nv : Int) (t : Bool) (rnbo : MainBox)
    (cb : SubBox) (st st' : BuildState) (it : Item)
    (h : process_item m nv t rnbo cb st it = some st') :
    (⟨st.sub.nextId, "textbox",
        "set " ++ build_label it.itemType it.shortname t⟩ : SubBox) ∈ st'.sub.boxes
  ∧ (⟨st.sub.nextId + 1, st.sub.nextId, 0, 0⟩ : Line) ∈ st'.sub.lines
  ∧ (⟨st.sub.nextId, cb.id, 0, 0⟩ : Line) ∈ st'.sub.lines := by
  by_cases hbc : it.itemType = "button" ∨ it.itemType = "checkbox"
  · simp only [process_item, hbc, if_true, SubPatch.addTextbox,
      Option.some.injEq] at h
    subst h
    refine ⟨(finish_item_mem _ _ _ _ _ _ _ _ _).1 _ (by simp),
      (finish_item_mem _ _ _ _ _ _ _ _ _).2.2.1,
      (finish_item_mem _ _ _ _ _ _ _ _ _).2.2.2⟩
  · by_cases hs : it.step = 0
    · simp [process_item, hbc, hs] at h
    · simp only [process_item, hbc, if_false, hs, SubPatch.addTextbox,
        Option.some.injEq, ite_false] at h
      subst h
      refine ⟨(finish_item_mem _ _ _ _ _ _ _ _ _).1 _ (by simp),
        (finish_item_mem _ _ _ _ _ _ _ _ _).2.2.1,
        (finish_item_mem _ _ _ _ _ _ _ _ _).2.2.2⟩

/-- One parameter-loop iteration only appends boxes and edges. -/
theorem process_item_mono (m : Bool) (nv : Int) (t : Bool) (rnbo : MainBox)
    (cb : SubBox) (st st' : BuildState) (it : Item)
    (h : process_item m nv t rnbo cb st it = some st') :
    (∀ b ∈ st.sub.boxes, b ∈ st'.sub.boxes)
  ∧ (∀ l ∈ st.sub.lines, l ∈ st'.sub.lines) := by
  by_cases hbc : it.itemType = "button" ∨ it.itemType = "checkbox"
  · simp only [process_item, hbc, if_true, SubPatch.addTextbox,
      Option.some.injEq] at h
    subst h
    exact ⟨fun b hb => (finish_item_mem _ _ _ _ _ _ _ _ _).1 b (by simp [hb]),
      fun l hl => (finish_item_mem _ _ _ _ _ _ _ _ _).2.1 l (by simp [hl])⟩
  · by_cases hs : it.step = 0
    · simp [process_item, hbc, hs] at h
    · simp only [process_item, hbc, if_false, hs, SubPatch.addTextbox,
        Option.some.injEq, ite_false] at h
      subst h
      exact ⟨fun b hb => (finish_item_mem _ _ _ _ _ _ _ _ _).1 b (by simp [hb]),
        fun l hl => (finish_item_mem _ _ _ _ _ _ _ _ _).2.1 l (by simp [hl])⟩

/-- One parameter-loop iteration adds no "notein" textbox. -/
theorem process_item_no_notein (m : Bool) (nv : Int) (t : Bool) (rnbo : MainBox)
    (cb : SubBox) (st st' : BuildState) (it : Item)
    (h : process_item m nv t rnbo cb st it = some st')
    (hn : ∀ b ∈ st.sub.boxes, b.kind = "textbox" → b.text ≠ "notein") :
    ∀ b ∈ st'.sub.boxes, b.kind = "textbox" → b.text ≠ "notein" := by
  by_cases hbc : it.itemType = "button" ∨ it.itemType = "checkbox"
  · simp only [process_item, hbc, if_true, SubPatch.addTextbox,
      Option.some.injEq] at h
    subst h
    apply finish_item_no_notein
    intro b hb hk
    simp only [List.mem_append, List.mem_singleton] at hb
    rcases hb with (hb | hb) | hb
    · exact hn b hb hk
    · subst hb
      exact append_ne _ _ _ (by decide)
    · subst hb
      simp only [String.append_assoc]
      exact append_ne _ _ _ (by decide)
  · by_cases hs : it.step = 0
    · simp [process_item, hbc, hs] at h
    · simp only [process_item, hbc, if_false, hs, SubPatch.addTextbox,
        Option.some.injEq, ite_false] at h
      subst h
      apply finish_item_no_notein
      intro b hb hk
      simp only [List.mem_append, List.mem_singleton] at hb
      rcases hb with (hb | hb) | hb
      · exact hn b hb hk
      · subst hb
        exact append_ne _ _ _ (by decide)
      · subst hb
        simp only [String.append_assoc]
        exact append_ne _ _ _ (by decide)

/-- The whole parameter loop only appends boxes and edges. -/
theorem process_items_mono (m : Bool) (nv : Int) (t : Bool) (rnbo : MainBox)
    (cb : SubBox) (items : List Item) (st st' : BuildState)
    (h : process_items m nv t rnbo cb items st = some st') :
    (∀ b ∈ st.sub.boxes, b ∈ st'.sub.boxes)
  ∧ (∀ l ∈ st.sub.lines, l ∈ st'.sub.lines) := by
  induction items generalizing st with
  | nil =>
    simp only [process_items, Option.some.injEq] at h
    subst h
    exact ⟨fun b hb => hb, fun l hl => hl⟩
  | cons it rest ih =>
    simp only [process_items] at h
    cases hpi : process_item m nv t rnbo cb st it with
    | none => simp [hpi] at h
    | some st1 =>
      simp only [hpi] at h
      obtain ⟨hb1, hl1⟩ := process_item_mono m nv t rnbo cb st st1 it hpi
      obtain ⟨hb2, hl2⟩ := ih st1 h
      exact ⟨fun b hb => hb2 b (hb1 b hb), fun l hl => hl2 l (hl1 l hl)⟩

/-- The whole parameter loop adds no "notein" textbox. -/
theorem process_items_no_notein (m : Bool) (nv : Int) (t : Bool)
    (rnbo : MainBox) (cb : SubBox) (items : List Item) (st st' : BuildState)
    (h : process_items m nv t rnbo cb items st = some st')
    (hn : ∀ b ∈ st.sub.boxes, b.kind = "textbox" → b.text ≠ "notein") :
    ∀ b ∈ st'.sub.boxes, b.kind = "textbox" → b.text ≠ "notein" := by
  induction items generalizing st with
  | nil =>
    simp only [process_items, Option.some.injEq] at h
    subst h
    exact hn
  | cons it rest ih =>
    simp only [process_items] at h
    cases hpi : process_item m nv t rnbo cb st it with
    | none => simp [hpi] at h
    | some st1 =>
      simp only [hpi] at h
      exact ih st1 h (process_item_no_notein m nv t rnbo cb st st1 it hpi hn)

/-- Every parameter's non-MIDI control wiring survives to the end of the
loop. -/
theorem process_items_wiring (m : Bool) (nv : Int) (t : Bool) (rnbo : MainBox)
    (cb : SubBox) (items : List Item) (st st' : BuildState)
    (h : process_items m nv t rnbo cb items st = some st') :
    ∀ it ∈ items, ∃ k,
      (⟨k, "textbox",
        "set " ++ build_label it.itemType it.shortname t⟩ : SubBox) ∈ st'.sub.boxes
      ∧ (⟨k + 1, k, 0, 0⟩ : Line) ∈ st'.sub.lines
      ∧ (⟨k, cb.id, 0, 0⟩ : Line) ∈ st'.sub.lines := by
  induction items generalizing st with
  | nil => simp
  | cons it rest ih =>
    simp only [process_items] at h
    cases hpi : process_item m nv t rnbo cb st it with
    | none => simp [hpi] at h
    | some st1 =>
      simp only [hpi] at h
      intro x hx
      rcases List.mem_cons.mp hx with rfl | hx'
      · obtain ⟨h1, h2, h3⟩ := process_item_set_box m nv t rnbo cb st st1 x hpi
        obtain ⟨hb2, hl2⟩ := process_items_mono m nv t rnbo cb rest st1 st' h
        exact ⟨st.sub.nextId, hb2 _ h1, hl2 _ h2, hl2 _ h3⟩
      · exact ih st1 h x hx'

/-- Without freq- or key-suffixed parameters the pitch accumulator and
mode are untouched. -/
theorem process_items_pitch_pres (m : Bool) (nv : Int) (t : Bool)
    (rnbo : MainBox) (cb : SubBox) (items : List Item) (st st' : BuildState)
    (h : process_items m nv t rnbo cb items st = some st')
    (hno : ∀ it ∈ items, roleOf it.shortname ≠ some PolyRole.pitchFreq
        ∧ roleOf it.shortname ≠ some PolyRole.pitchKey) :
    st'.pitch = st.pitch ∧ st'.is_freq = st.is_freq := by
  induction items generalizing st with
  | nil =>
    simp only [process_items, Option.some.injEq] at h
    subst h
    exact ⟨rfl, rfl⟩
  | cons it rest ih =>
    simp only [process_items] at h
    cases hpi : process_item m nv t rnbo cb st it with
    | none => simp [hpi] at h
    | some st1 =>
      simp only [hpi] at h
      obtain ⟨hp, hf, -, -, -⟩ := process_item_roles m nv t rnbo cb st st1 it hpi
      have hit := hno it (List.mem_cons_self _ _)
      obtain ⟨ih1, ih2⟩ := ih st1 h (fun x hx => hno x (List.mem_cons_of_mem _ hx))
      have hkeep : ∀ v : Option SubBox × Bool,
          (if m && decide (0 < nv) then
            match roleOf it.shortname with
            | some PolyRole.pitchFreq => (some (⟨st.sub.nextId, "textbox",
                "set " ++ build_label it.itemType it.shortname t⟩ : SubBox))
            | some PolyRole.pitchKey => (some (⟨st.sub.nextId, "textbox",
                "set " ++ build_label it.itemType it.shortname t⟩ : SubBox))
            | _ => st.pitch
          else st.pitch) = st.pitch := by
        intro v
        rcases hrole : roleOf it.shortname with _ | r
        · simp
        · cases r
          · exact absurd hrole hit.1
          · exact absurd hrole hit.2
          · simp
          · simp
          · simp
      constructor
      · rw [ih1, hp, hkeep ⟨none, false⟩]
      · rw [ih2, hf]
        rcases hrole : roleOf it.shortname with _ | r
        · simp
        · cases r
          · exact absurd hrole hit.1
          · exact absurd hrole hit.2
          · simp
          · simp
          · simp

/-- Without gain- or velocity-suffixed parameters the gain accumulator
and mode are untouched. -/
theorem process_items_gain_pres (m : Bool) (nv : Int) (t : Bool)
    (rnbo : MainBox) (cb : SubBox) (items : List Item) (st st' : BuildState)
    (h : process_items m nv t rnbo cb items st = some st')
    (hno : ∀ it ∈ items, roleOf it.shortname ≠ some PolyRole.gainDirect
        ∧ roleOf it.shortname ≠ some PolyRole.gainVel) :
    st'.gain = st.gain ∧ st'.is_gain = st.is_gain := by
  induction items generalizing st with
  | nil =>
    simp only [process_items, Option.some.injEq] at h
    subst h
    exact ⟨rfl, rfl⟩
  | cons it rest ih =>
    simp only [process_items] at h
    cases hpi : process_item m nv t rnbo cb st it with
    | none => simp [hpi] at h
    | some st1 =>
      simp only [hpi] at h
      obtain ⟨-, -, hg, hig, -⟩ := process_item_roles m nv t rnbo cb st st1 it hpi
      have hit := hno it (List.mem_cons_self _ _)
      obtain ⟨ih1, ih2⟩ := ih st1 h (fun x hx => hno x (List.mem_cons_of_mem _ hx))
      constructor
      · rw [ih1, hg]
        rcases hrole : roleOf it.shortname with _ | r
        · simp
        · cases r
          · simp
          · simp
          · exact absurd hrole hit.1
          · exact absurd hrole hit.2
          · simp
      · rw [ih2, hig]
        rcases hrole : roleOf it.shortname with _ | r
        · simp
        · cases r
          · simp
          · simp
          · exact absurd hrole hit.1
          · exact absurd hrole hit.2
          · simp

/-- Without gate-suffixed parameters the gate accumulator is
untouched. -/
theorem process_items_gate_pres (m : Bool) (nv : Int) (t : Bool)
    (rnbo : MainBox) (cb : SubBox) (items : List Item) (st st' : BuildState)
    (h : process_items m nv t rnbo cb items st = some st')
    (hno : ∀ it ∈ items, roleOf it.shortname ≠ some PolyRole.gateRole) :
    st'.gate = st.gate := by
  induction items generalizing st with
  | nil =>
    simp only [process_items, Option.some.injEq] at h
    subst h
    rfl
  | cons it rest ih =>
    simp only [process_items] at h
    cases hpi : process_item m nv t rnbo cb st it with
    | none => simp [hpi] at h
    | some st1 =>
      simp only [hpi] at h
      obtain ⟨-, -, -, -, hg⟩ := process_item_roles m nv t rnbo cb st st1 it hpi
      have hit := hno it (List.mem_cons_self _ _)
      rw [ih st1 h (fun x hx => hno x (List.mem_cons_of_mem _ hx)), hg]
      rcases hrole : roleOf it.shortname with _ | r
      · simp
      · cases r
        · simp
        · simp
        · simp
        · simp
        · exact absurd hrole hit

/-- A freq-suffixed parameter (and no key-suffixed one) binds the pitch
relay in frequency mode to that parameter's "set" box. -/
theorem process_items_pitch_est (m : Bool) (nv : Int) (t : Bool)
    (rnbo : MainBox) (cb : SubBox) (items : List Item) (st st' : BuildState)
    (hcond : (m && decide (0 < nv)) = true)
    (h : process_items m nv t rnbo cb items st = some st')
    (hex : ∃ it ∈ items, roleOf it.shortname = some PolyRole.pitchFreq)
    (hnk : ∀ it ∈ items, roleOf it.shortname ≠ some PolyRole.pitchKey) :
    ∃ pb, st'.pitch = some pb ∧ st'.is_freq = true ∧ pb ∈ st'.sub.boxes
      ∧ ∃ it, it ∈ items ∧ roleOf it.shortname = some PolyRole.pitchFreq
          ∧ pb.text = "set " ++ build_label it.itemType it.shortname t := by
  induction items generalizing st with
  | nil => simp at hex
  | cons it rest ih =>
    simp only [process_items] at h
    cases hpi : process_item m nv t rnbo cb st it with
    | none => simp [hpi] at h
    | some st1 =>
      simp only [hpi] at h
      by_cases hex' : ∃ x ∈ rest, roleOf x.shortname = some PolyRole.pitchFreq
      · obtain ⟨pb, h1, h2, h3, x, hx, hx2, hx3⟩ :=
          ih st1 h hex' (fun x hx => hnk x (List.mem_cons_of_mem _ hx))
        exact ⟨pb, h1, h2, h3, x, List.mem_cons_of_mem _ hx, hx2, hx3⟩
      · have hhead : roleOf it.shortname = some PolyRole.pitchFreq := by
          rcases hex with ⟨x, hx, hx2⟩
          rcases List.mem_cons.mp hx with rfl | hx'
          · exact hx2
          · exact absurd ⟨x, hx', hx2⟩ hex'
        obtain ⟨hp, hf, -, -, -⟩ := process_item_roles m nv t rnbo cb st st1 it hpi
        have hp1 : st1.pitch = some ⟨st.sub.nextId, "textbox",
            "set " ++ build_label it.itemType it.shortname t⟩ := by
          rw [hp]
          simp [hcond, hhead]
        have hf1 : st1.is_freq = true := by
          rw [hf]
          simp [hcond, hhead]
        have hpres := process_items_pitch_pres m nv t rnbo cb rest st1 st' h
          (fun x hx => ⟨fun hc => hex' ⟨x, hx, hc⟩,
            hnk x (List.mem_cons_of_mem _ hx)⟩)
        obtain ⟨hsb, -, -⟩ := process_item_set_box m nv t rnbo cb st st1 it hpi
        obtain ⟨hmb, -⟩ := process_items_mono m nv t rnbo cb rest st1 st' h
        exact ⟨_, by rw [hpres.1, hp1], by rw [hpres.2, hf1], hmb _ hsb,
          it, List.mem_cons_self _ _, hhead, rfl⟩

/-- A gain-suffixed parameter (and no velocity-suffixed one) binds the
gain relay in direct mode to that parameter's "set" box. -/
theorem process_items_gain_est (m : Bool) (nv : Int) (t : Bool)
    (rnbo : MainBox) (cb : SubBox) (items : List Item) (st st' : BuildState)
    (hcond : (m && decide (0 < nv)) = true)
    (h : process_items m nv t rnbo cb items st = some st')
    (hex : ∃ it ∈ items, roleOf it.shortname = some PolyRole.gainDirect)
    (hnv : ∀ it ∈ items, roleOf it.shortname ≠ some PolyRole.gainVel) :
    ∃ gb, st'.gain = some gb ∧ st'.is_gain = true ∧ gb ∈ st'.sub.boxes
      ∧ ∃ it, it ∈ items ∧ roleOf it.shortname = some PolyRole.gainDirect
          ∧ gb.text = "set " ++ build_label it.itemType it.shortname t := by
  induction items generalizing st with
  | nil => simp at hex
  | cons it rest ih =>
    simp only [process_items] at h
    cases hpi : process_item m nv t rnbo cb st it with
    | none => simp [hpi] at h
    | some st1 =>
      simp only [hpi] at h
      by_cases hex' : ∃ x ∈ rest, roleOf x.shortname = some PolyRole.gainDirect
      · obtain ⟨gb, h1, h2, h3, x, hx, hx2, hx3⟩ :=
          ih st1 h hex' (fun x hx => hnv x (List.mem_cons_of_mem _ hx))
        exact ⟨gb, h1, h2, h3, x, List.mem_cons_of_mem _ hx, hx2, hx3⟩
      · have hhead : roleOf it.shortname = some PolyRole.gainDirect := by
          rcases hex with ⟨x, hx, hx2⟩
          rcases List.mem_cons.mp hx with rfl | hx'
          · exact hx2
          · exact absurd ⟨x, hx', hx2⟩ hex'
        obtain ⟨-, -, hg, hig, -⟩ := process_item_roles m nv t rnbo cb st st1 it hpi
        have hg1 : st1.gain = some ⟨st.sub.nextId, "textbox",
            "set " ++ build_label it.itemType it.shortname t⟩ := by
          rw [hg]
          simp [hcond, hhead]
        have hig1 : st1.is_gain = true := by
          rw [hig]
          simp [hcond, hhead]
        have hpres := process_items_gain_pres m nv t rnbo cb rest st1 st' h
          (fun x hx => ⟨fun hc => hex' ⟨x, hx, hc⟩,
            hnv x (List.mem_cons_of_mem _ hx)⟩)
        obtain ⟨hsb, -, -⟩ := process_item_set_box m nv t rnbo cb st st1 it hpi
        obtain ⟨hmb, -⟩ := process_items_mono m nv t rnbo cb rest st1 st' h
        exact ⟨_, by rw [hpres.1, hg1], by rw [hpres.2, hig1], hmb _ hsb,
          it, List.mem_cons_self _ _, hhead, rfl⟩

/-- A gate-suffixed parameter binds the gate relay to that parameter's
"set" box. -/
theorem process_items_gate_est (m : Bool) (nv : Int) (t : Bool)
    (rnbo : MainBox) (cb : SubBox) (items : List Item) (st st' : BuildState)
    (hcond : (m && decide (0 < nv)) = true)
    (h : process_items m nv t rnbo cb items st = some st')
    (hex : ∃ it ∈ items, roleOf it.shortname = some PolyRole.gateRole) :
    ∃ tb, st'.gate = some tb ∧ tb ∈ st'.sub.boxes
      ∧ ∃ it, it ∈ items ∧ roleOf it.shortname = some PolyRole.gateRole
          ∧ tb.text = "set " ++ build_label it.itemType it.shortname t := by
  induction items generalizing st with
  | nil => simp at hex
  | cons it rest ih =>
    simp only [process_items] at h
    cases hpi : process_item m nv t rnbo cb st it with
    | none => simp [hpi] at h
    | some st1 =>
      simp only [hpi] at h
      by_cases hex' : ∃ x ∈ rest, roleOf x.shortname = some PolyRole.gateRole
      · obtain ⟨tb, h1, h3, x, hx, hx2, hx3⟩ := ih st1 h hex'
        exact ⟨tb, h1, h3, x, List.mem_cons_of_mem _ hx, hx2, hx3⟩
      · have hhead : roleOf it.shortname = some PolyRole.gateRole := by
          rcases hex with ⟨x, hx, hx2⟩
          rcases List.mem_cons.mp hx with rfl | hx'
          · exact hx2
          · exact absurd ⟨x, hx', hx2⟩ hex'
        obtain ⟨-, -, -, -, hg⟩ := process_item_roles m nv t rnbo cb st st1 it hpi
        have hg1 : st1.gate = some ⟨st.sub.nextId, "textbox",
            "set " ++ build_label it.itemType it.shortname t⟩ := by
          rw [hg]
          simp [hcond, hhead]
        have hpres := process_items_gate_pres m nv t rnbo cb rest st1 st' h
          (fun x hx hc => hex' ⟨x, hx, hc⟩)
        obtain ⟨hsb, -, -⟩ := process_item_set_box m nv t rnbo cb st st1 it hpi
        obtain ⟨hmb, -⟩ := process_items_mono m nv t rnbo cb rest st1 st' h
        exact ⟨_, by rw [hpres, hg1], hmb _ hsb,
          it, List.mem_cons_self _ _, hhead, rfl⟩

/-- The codebox/placeholder/in-out part of the subpatch holds no
"notein" textbox. -/
theorem initSub_no_notein (code : String) (ni no : Nat) :
    ∀ b ∈ (initSub code ni no).2.boxes, b.kind = "textbox" → b.text ≠ "notein" := by
  intro b hb hk
  by_cases h0 : ni = 0 <;>
    simp only [initSub, SubPatch.empty, SubPatch.addCodebox, SubPatch.addTextbox,
      SubPatch.addLine, h0, if_true, if_false, ite_true, ite_false,
      List.append_assoc, List.mem_append, List.mem_singleton, List.mem_cons,
      List.mem_nil_iff, or_false, false_or,
      sigInBoxes, sigOutBoxes, List.mem_map, List.mem_range] at hb
  · rcases hb with hb | hb | ⟨i, hi, hb⟩ | ⟨i, hi, hb⟩
    · rw [hb] at hk
      simp at hk
    · rw [hb]
      decide
    · rw [← hb]
      simp only [String.append_assoc]
      exact append_ne _ _ _ (by decide)
    · rw [← hb]
      simp only [String.append_assoc]
      exact append_ne _ _ _ (by decide)
  · rcases hb with hb | ⟨i, hi, hb⟩ | ⟨i, hi, hb⟩
    · rw [hb] at hk
      simp at hk
    · rw [← hb]
      simp only [String.append_assoc]
      exact append_ne _ _ _ (by decide)
    · rw [← hb]
      simp only [String.append_assoc]
      exact append_ne _ _ _ (by decide)

/-- C5 (confirmed): for a MIDI-enabled unit with `voice_count > 0` whose
parameters contain freq-, gain- and gate-suffixed shortnames (classified
by `roleOf`, with no key/velocity overrides), `add_rnbo_object` builds
the polyphony sub-graph: exactly one notein box, a pitch path through
mtof into the freq parameter's relay, a gain path through
`scale 0 127 0 1`, and a gate path through `> 0`; and when any of the
three roles is missing, no polyphony sub-graph is built at all (no
notein box) while every parameter's control wiring is still present. -/
theorem c5_polyphony :
    (∀ (p : Patcher) (name code : String) (items : List Item) (nv : Int)
        (test : Bool) (ni no : Nat) (b : MainBox) (sub : SubPatch) (p' : Patcher),
      add_rnbo_object p name code items true nv test ni no = some (b, sub, p') →
      0 < nv →
      (∃ it ∈ items, roleOf it.shortname = some PolyRole.pitchFreq) →
      (∃ it ∈ items, roleOf it.shortname = some PolyRole.gainDirect) →
      (∃ it ∈ items, roleOf it.shortname = some PolyRole.gateRole) →
      (∀ it ∈ items, roleOf it.shortname ≠ some PolyRole.pitchKey) →
      (∀ it ∈ items, roleOf it.shortname ≠ some PolyRole.gainVel) →
      ∃ nid pb gb tb,
        (⟨nid, "textbox", "notein"⟩ : SubBox) ∈ sub.boxes
        ∧ (⟨nid + 1, "textbox", "mtof"⟩ : SubBox) ∈ sub.boxes
        ∧ (⟨nid + 2, "textbox", "scale 0 127 0 1"⟩ : SubBox) ∈ sub.boxes
        ∧ (⟨nid + 3, "textbox", "> 0"⟩ : SubBox) ∈ sub.boxes
        ∧ (sub.boxes.filter
            (fun bb => bb.kind == "textbox" && bb.text == "notein")).length = 1
        ∧ pb ∈ sub.boxes ∧ gb ∈ sub.boxes ∧ tb ∈ sub.boxes
        ∧ (∃ it, it ∈ items ∧ roleOf it.shortname = some PolyRole.pitchFreq
            ∧ pb.text = "set " ++ build_label it.itemType it.shortname test)
        ∧ (∃ it, it ∈ items ∧ roleOf it.shortname = some PolyRole.gainDirect
            ∧ gb.text = "set " ++ build_label it.itemType it.shortname test)
        ∧ (∃ it, it ∈ items ∧ roleOf it.shortname = some PolyRole.gateRole
            ∧ tb.text = "set " ++ build_label it.itemType it.shortname test)
        ∧ (⟨nid, nid + 1, 0, 0⟩ : Line) ∈ sub.lines
        ∧ (⟨nid + 1, pb.id, 0, 0⟩ : Line) ∈ sub.lines
        ∧ (⟨nid, nid + 2, 1, 0⟩ : Line) ∈ sub.lines
        ∧ (⟨nid + 2, gb.id, 0, 0⟩ : Line) ∈ sub.lines
        ∧ (⟨nid, nid + 3, 1, 0⟩ : Line) ∈ sub.lines
        ∧ (⟨nid + 3, tb.id, 0, 0⟩ : Line) ∈ sub.lines)
  ∧ (∀ (p : Patcher) (name code : String) (items : List Item) (m : Bool)
        (nv : Int) (test : Bool) (ni no : Nat) (b : MainBox) (sub : SubPatch)
        (p' : Patcher),
      add_rnbo_object p name code items m nv test ni no = some (b, sub, p') →
      ((∀ it ∈ items, roleOf it.shortname ≠ some PolyRole.pitchFreq
          ∧ roleOf it.shortname ≠ some PolyRole.pitchKey)
        ∨ (∀ it ∈ items, roleOf it.shortname ≠ some PolyRole.gainDirect
          ∧ roleOf it.shortname ≠ some PolyRole.gainVel)
        ∨ (∀ it ∈ items, roleOf it.shortname ≠ some PolyRole.gateRole)) →
      (∀ bb ∈ sub.boxes, bb.kind = "textbox" → bb.text ≠ "notein")
      ∧ ∀ it ∈ items, ∃ k,
          (⟨k, "textbox",
            "set " ++ build_label it.itemType it.shortname test⟩ : SubBox) ∈ sub.boxes
          ∧ (⟨k + 1, k, 0, 0⟩ : Line) ∈ sub.lines
          ∧ (⟨k, 0, 0, 0⟩ : Line) ∈ sub.lines) := by
  constructor
  · intro p name code items nv test ni no b sub p' h hnv hf hg htt hnk hnvel
    have hcond : (true && decide (0 < nv)) = true := by simp [hnv]
    simp only [add_rnbo_object, Option.bind_eq_some, Option.map_eq_some',
      Prod.mk.injEq] at h
    obtain ⟨io, hio, st, hst, hb, hsub, hp'⟩ := h
    obtain ⟨pb, hpb, hfr, hpbm, itp, hitp, hitp2, hitp3⟩ :=
      process_items_pitch_est _ _ _ _ _ _ _ _ hcond hst hf hnk
    obtain ⟨gb, hgb, hgn, hgbm, itg, hitg, hitg2, hitg3⟩ :=
      process_items_gain_est _ _ _ _ _ _ _ _ hcond hst hg hnvel
    obtain ⟨tb, htb, htbm, itt, hitt, hitt2, hitt3⟩ :=
      process_items_gate_est _ _ _ _ _ _ _ _ hcond hst htt
    have hnn := process_items_no_notein _ _ _ _ _ _ _ _ hst
      (initSub_no_notein code ni no)
    have hsub2 : add_polyphony_control st.sub pb gb tb true true = sub := by
      rw [← hsub]
      unfold finishPoly
      rw [hcond, hpb, hgb, htb, hfr, hgn]
      simp
    obtain ⟨hbx, hln⟩ := add_polyphony_control_spec st.sub pb gb tb
    have hfil : st.sub.boxes.filter
        (fun bb => bb.kind == "textbox" && bb.text == "notein") = [] := by
      rw [List.filter_eq_nil_iff]
      intro a ha
      by_cases hak : a.kind = "textbox"
      · simp [hak, hnn a ha hak]
      · simp [hak]
    refine ⟨st.sub.nextId, pb, gb, tb, ?_, ?_, ?_, ?_, ?_,
      ?_, ?_, ?_, ⟨itp, hitp, hitp2, hitp3⟩, ⟨itg, hitg, hitg2, hitg3⟩,
      ⟨itt, hitt, hitt2, hitt3⟩, ?_, ?_, ?_, ?_, ?_, ?_⟩
    · rw [← hsub2, hbx]; simp
    · rw [← hsub2, hbx]; simp
    · rw [← hsub2, hbx]; simp
    · rw [← hsub2, hbx]; simp
    · rw [← hsub2, hbx, List.filter_append, hfil]
      simp [List.filter]
    · rw [← hsub2, hbx]
      exact List.mem_append_left _ hpbm
    · rw [← hsub2, hbx]
      exact List.mem_append_left _ hgbm
    · rw [← hsub2, hbx]
      exact List.mem_append_left _ htbm
    · rw [← hsub2, hln]; simp
    · rw [← hsub2, hln]; simp
    · rw [← hsub2, hln]; simp
    · rw [← hsub2, hln]; simp
    · rw [← hsub2, hln]; simp
    · rw [← hsub2, hln]; simp
  · intro p name code items m nv test ni no b sub p' h hmiss
    simp only [add_rnbo_object, Option.bind_eq_some, Option.map_eq_some',
      Prod.mk.injEq] at h
    obtain ⟨io, hio, st, hst, hb, hsub, hp'⟩ := h
    have hnn := process_items_no_notein _ _ _ _ _ _ _ _ hst
      (initSub_no_notein code ni no)
    have hcb : (initSub code ni no).1.id = 0 := rfl
    have hsub' : sub = st.sub := by
      rw [← hsub]
      unfold finishPoly
      rcases hmiss with hm | hm | hm
      · have hpn := (process_items_pitch_pres _ _ _ _ _ _ _ _ hst hm).1
        cases hcond : (m && decide (0 < nv)) <;> simp [hpn]
      · have hgn := (process_items_gain_pres _ _ _ _ _ _ _ _ hst hm).1
        cases hcond : (m && decide (0 < nv)) <;>
          cases hpv : st.pitch <;> simp [hgn, hpv]
      · have htn := process_items_gate_pres _ _ _ _ _ _ _ _ hst hm
        cases hcond : (m && decide (0 < nv)) <;>
          cases hpv : st.pitch <;> cases hgv : st.gain <;> simp [htn, hpv, hgv]
    constructor
    · rw [hsub']
      exact hnn
    · intro it hit
      obtain ⟨k, h1, h2, h3⟩ :=
        process_items_wiring _ _ _ _ _ _ _ _ hst it hit
      rw [hcb] at h3
      exact ⟨k, by rw [hsub']; exact h1, by rw [hsub']; exact h2,
        by rw [hsub']; exact h3⟩

/-- C5 witness: both parts on concrete builds — `c5items`
(voice_freq/voice_gain/voice_gate, 4 voices) for completeness and
`c5items2` (gate removed) for suppression. -/
theorem c5_polyphony_witness :
    (∃ nid pb gb tb,
        (⟨nid, "textbox", "notein"⟩ : SubBox) ∈ c5objR.2.1.boxes
        ∧ (⟨nid + 1, "textbox", "mtof"⟩ : SubBox) ∈ c5objR.2.1.boxes
        ∧ (⟨nid + 2, "textbox", "scale 0 127 0 1"⟩ : SubBox) ∈ c5objR.2.1.boxes
        ∧ (⟨nid + 3, "textbox", "> 0"⟩ : SubBox) ∈ c5objR.2.1.boxes
        ∧ (c5objR.2.1.boxes.filter
            (fun bb => bb.kind == "textbox" && bb.text == "notein")).length = 1
        ∧ pb ∈ c5objR.2.1.boxes ∧ gb ∈ c5objR.2.1.boxes ∧ tb ∈ c5objR.2.1.boxes
        ∧ (∃ it, it ∈ c5items ∧ roleOf it.shortname = some PolyRole.pitchFreq
            ∧ pb.text = "set " ++ build_label it.itemType it.shortname false)
        ∧ (∃ it, it ∈ c5items ∧ roleOf it.shortname = some PolyRole.gainDirect
            ∧ gb.text = "set " ++ build_label it.itemType it.shortname false)
        ∧ (∃ it, it ∈ c5items ∧ roleOf it.shortname = some PolyRole.gateRole
            ∧ tb.text = "set " ++ build_label it.itemType it.shortname false)
        ∧ (⟨nid, nid + 1, 0, 0⟩ : Line) ∈ c5objR.2.1.lines
        ∧ (⟨nid + 1, pb.id, 0, 0⟩ : Line) ∈ c5objR.2.1.lines
        ∧ (⟨nid, nid + 2, 1, 0⟩ : Line) ∈ c5objR.2.1.lines
        ∧ (⟨nid + 2, gb.id, 0, 0⟩ : Line) ∈ c5objR.2.1.lines
        ∧ (⟨nid, nid + 3, 1, 0⟩ : Line) ∈ c5objR.2.1.lines
        ∧ (⟨nid + 3, tb.id, 0, 0⟩ : Line) ∈ c5objR.2.1.lines)
  ∧ ((∀ bb ∈ c5obj2R.2.1.boxes, bb.kind = "textbox" → bb.text ≠ "notein")
      ∧ ∀ it ∈ c5items2, ∃ k,
          (⟨k, "textbox",
            "set " ++ build_label it.itemType it.shortname false⟩ : SubBox)
              ∈ c5obj2R.2.1.boxes
          ∧ (⟨k + 1, k, 0, 0⟩ : Line) ∈ c5obj2R.2.1.lines
          ∧ (⟨k, 0, 0, 0⟩ : Line) ∈ c5obj2R.2.1.lines) :=
  ⟨c5_polyphony.1 Patcher.empty "poly" "code" c5items 4 false 0 2
      c5objR.1 c5objR.2.1 c5objR.2.2 (by decide) (by decide) (by decide)
      (by decide) (by decide) (by decide) (by decide),
   c5_polyphony.2 Patcher.empty "poly" "code" c5items2 true 4 false 0 2
      c5obj2R.1 c5obj2R.2.1 c5obj2R.2.2 (by decide)
      (Or.inr (Or.inr (by decide)))⟩
